import Mathlib

/-!
# vtkGenericClip and vtkValuePass

A shallow embedding of `GenericFiltering/vtkGenericClip.cxx` and
`Rendering/OpenGL2/vtkValuePass.cxx`.

Conventions of the embedding.

* C++ objects are records; a member function becomes a function that takes the
  record and returns the updated record.
* A pointer that may be null is an `Option`.
* `int` arithmetic whose result can leave the 32-bit range goes through
  `wrapInt` (two's complement wrap-around).
* `double` values are only stored and passed on by the code embedded here;
  they are carried as rationals.
* Calls into toolkit classes whose code is outside these files are fields of a
  record of collaborators (`ClipCollaborators`, `RenderCollaborators`).
-/

namespace VTK

/-! ## Machine integers -/

/-- Largest value of a C++ `int`. -/
def INT_MAX : Int := 2147483647

/-- The value an `int` expression has after two's complement wrap-around. -/
def wrapInt (x : Int) : Int := (x + 2147483648) % 4294967296 - 2147483648

/-! ## vtkGenericClip: data model -/

/-- vtkImplicitFunction: the filter reads its modification time only. -/
structure vtkImplicitFunction where
  MTime : Nat
  deriving DecidableEq

/-- vtkPoints: the coordinates inserted so far. -/
structure vtkPoints where
  Data : List (Rat × Rat × Rat)
  deriving DecidableEq

/-- vtkPointLocator: its modification time and the ids of the points it has
registered. -/
structure vtkPointLocator where
  MTime : Nat
  Inserted : List Int
  deriving DecidableEq

/-- vtkDataArray as `CreateDataArray`, `SetNumberOfComponents` and `SetName`
leave it, with the tuples stored later. -/
structure vtkDataArray where
  DataType : Int
  NumberOfComponents : Int
  Name : Option String
  Tuples : List (List Rat)
  deriving DecidableEq

/-- vtkDataSetAttributes (vtkPointData, vtkCellData): the arrays held and the
index of the active array per attribute type. -/
structure vtkDataSetAttributes where
  Arrays : List vtkDataArray
  AttributeIndices : List (Int × Int)
  deriving DecidableEq

/-- Result of `vtkPointData::New()` and `vtkCellData::New()`: no arrays. -/
def vtkDataSetAttributes.New : vtkDataSetAttributes :=
  { Arrays := [], AttributeIndices := [] }

/-- Member `GetNumberOfArrays`. -/
def vtkDataSetAttributes.GetNumberOfArrays (d : vtkDataSetAttributes) : Int :=
  d.Arrays.length

/-- vtkCellArray: the cells (each a list of point ids) and the traversal
position, counted in cells. -/
structure vtkCellArray where
  Cells : List (List Int)
  Traversal : Nat
  deriving DecidableEq

/-- Result of `vtkCellArray::New()` followed by `Allocate` and `InitTraversal`. -/
def vtkCellArray.New : vtkCellArray := { Cells := [], Traversal := 0 }

/-- Member `GetNumberOfCells`. -/
def vtkCellArray.GetNumberOfCells (c : vtkCellArray) : Int := c.Cells.length

/-- Member `GetTraversalLocation`: offset of the current cell in the flat
connectivity array, where each cell takes one slot for its size and one per
point id. -/
def vtkCellArray.GetTraversalLocation (c : vtkCellArray) : Int :=
  ((c.Cells.take c.Traversal).map (fun cell => (cell.length : Int) + 1)).sum

/-- Member `GetNextCell(npts, pts)`: the current cell, when there is one, and
the array advanced past it. -/
def vtkCellArray.GetNextCell (c : vtkCellArray) : Option (List Int) × vtkCellArray :=
  match c.Cells.get? c.Traversal with
  | some cell => (some cell, { c with Traversal := c.Traversal + 1 })
  | none => (none, c)

/-- The cell types `Execute` stores; `VTK_EMPTY_CELL` is the value 0 its
local `cellType` starts with. -/
inductive VTKCellType where
  | VTK_EMPTY_CELL
  | VTK_VERTEX
  | VTK_POLY_VERTEX
  | VTK_LINE
  | VTK_POLY_LINE
  | VTK_TRIANGLE
  | VTK_QUAD
  | VTK_POLYGON
  | VTK_TETRA
  | VTK_WEDGE
  deriving DecidableEq

/-- vtkUnstructuredGrid: points, cell types, cell locations, connectivity and
the two attribute containers. -/
structure vtkUnstructuredGrid where
  Points : Option vtkPoints
  Types : List VTKCellType
  Locations : List Int
  Connectivity : vtkCellArray
  PointData : vtkDataSetAttributes
  CellData : vtkDataSetAttributes
  deriving DecidableEq

/-- Result of `vtkUnstructuredGrid::New()`. -/
def vtkUnstructuredGrid.New : vtkUnstructuredGrid :=
  { Points := none, Types := [], Locations := [], Connectivity := vtkCellArray.New,
    PointData := vtkDataSetAttributes.New, CellData := vtkDataSetAttributes.New }

/-- Centering of a generic attribute. -/
inductive Centering where
  | vtkPointCentered
  | vtkCellCentered
  | vtkBoundaryCentered
  deriving DecidableEq

/-- vtkGenericAttribute: what `GetName`, `GetType` (field `AttributeType`), `GetCentering`,
`GetComponentType` and `GetNumberOfComponents` return. -/
structure vtkGenericAttribute where
  Name : Option String
  AttributeType : Int
  Centering : Centering
  ComponentType : Int
  NumberOfComponents : Int
  deriving DecidableEq

/-- vtkGenericAdaptorCell: an identifier and what `GetDimension` returns. -/
structure vtkGenericAdaptorCell where
  Id : Nat
  Dimension : Int
  deriving DecidableEq

/-- vtkGenericDataSet: the number of points, the cells the cell iterator
visits, the attribute collection, the bounds and an identifier of the
tessellator. -/
structure vtkGenericDataSet where
  NumberOfPoints : Int
  Cells : List vtkGenericAdaptorCell
  Attributes : List vtkGenericAttribute
  Bounds : List Rat
  Tessellator : Nat
  deriving DecidableEq

/-- Member `GetNumberOfCells` of the data set. -/
def vtkGenericDataSet.GetNumberOfCells (d : vtkGenericDataSet) : Int := d.Cells.length

/-- The filter vtkGenericClip. `MTime` is what the superclass `GetMTime`
returns; `Output` and `ClippedOutput` are `Outputs[0]` and `Outputs[1]`, both
present from construction on (`NumberOfOutputs` is 2). -/
structure vtkGenericClip where
  MTime : Nat
  Input : Option vtkGenericDataSet
  Output : vtkUnstructuredGrid
  ClippedOutput : vtkUnstructuredGrid
  ClipFunction : Option vtkImplicitFunction
  InsideOut : Int
  Locator : Option vtkPointLocator
  Value : Rat
  GenerateClipScalars : Int
  GenerateClippedOutput : Int
  MergeTolerance : Rat
  InputScalarsSelection : Option String
  internalPD : vtkDataSetAttributes
  secondaryPD : vtkDataSetAttributes
  secondaryCD : vtkDataSetAttributes
  deriving DecidableEq

/-- Constructor `vtkGenericClip::vtkGenericClip(cf)`; `mtime` is the time stamp
the superclass constructor leaves. -/
def vtkGenericClip.New (cf : Option vtkImplicitFunction) (mtime : Nat) : vtkGenericClip :=
  { MTime := mtime
    Input := none
    Output := vtkUnstructuredGrid.New
    ClippedOutput := vtkUnstructuredGrid.New
    ClipFunction := cf
    InsideOut := 0
    Locator := none
    Value := 0
    GenerateClipScalars := 0
    GenerateClippedOutput := 0
    MergeTolerance := 1 / 100
    InputScalarsSelection := none
    internalPD := vtkDataSetAttributes.New
    secondaryPD := vtkDataSetAttributes.New
    secondaryCD := vtkDataSetAttributes.New }

/-- Member `vtkGenericClip::GetNumberOfOutputs`. -/
def vtkGenericClip.GetNumberOfOutputs (self : vtkGenericClip) : Int :=
  if self.GenerateClippedOutput ≠ 0 then 2 else 1

/-- Member `vtkGenericClip::GetMTime`. -/
def vtkGenericClip.GetMTime (self : vtkGenericClip) : Nat :=
  let mTime := self.MTime
  let mTime :=
    match self.ClipFunction with
    | some cf => if cf.MTime > mTime then cf.MTime else mTime
    | none => mTime
  let mTime :=
    match self.Locator with
    | some loc => if loc.MTime > mTime then loc.MTime else mTime
    | none => mTime
  mTime

/-- Member `vtkGenericClip::GetClippedOutput` (with `NumberOfOutputs` equal to 2). -/
def vtkGenericClip.GetClippedOutput (self : vtkGenericClip) : vtkUnstructuredGrid :=
  self.ClippedOutput

/-! ## vtkGenericClip::Execute -/

/-- The arguments `cell->Clip` receives by value or as read-only objects. -/
structure ClipArguments where
  Value : Rat
  ClipFunction : Option vtkImplicitFunction
  Attributes : List vtkGenericAttribute
  Tessellator : Nat
  InsideOut : Int
  deriving DecidableEq

/-- The objects `cell->Clip` receives by pointer and may write: the locator
(and through it the point set `newPoints`), the connectivity, the output point
and cell data, and the three containers of the filter. -/
structure ClipTargets where
  Locator : vtkPointLocator
  Points : vtkPoints
  Connectivity : vtkCellArray
  outPD : vtkDataSetAttributes
  outCD : vtkDataSetAttributes
  internalPD : vtkDataSetAttributes
  secondaryPD : vtkDataSetAttributes
  secondaryCD : vtkDataSetAttributes
  deriving DecidableEq

/-- The toolkit operations `Execute` calls whose code is outside
vtkGenericClip.cxx. `GetAbortExecute cellId` is the value of the abort flag
read at the progress update of cell `cellId`; `LocatorRelease` is
`vtkPointLocator::Initialize`. -/
structure ClipCollaborators where
  NewMergePoints : vtkPointLocator
  InitPointInsertion : vtkPointLocator → vtkPoints → List Rat → vtkPointLocator
  LocatorRelease : vtkPointLocator → vtkPointLocator
  AddArray : vtkDataSetAttributes → vtkDataArray → vtkDataSetAttributes
  GetAttribute : vtkDataSetAttributes → Int → Option vtkDataArray
  SetActiveAttribute : vtkDataSetAttributes → Int → Int → vtkDataSetAttributes
  InterpolateAllocate : vtkDataSetAttributes → vtkDataSetAttributes → Int → Int →
    vtkDataSetAttributes
  CopyAllocate : vtkDataSetAttributes → vtkDataSetAttributes → Int → Int →
    vtkDataSetAttributes
  Clip : vtkGenericAdaptorCell → ClipArguments → ClipTargets → ClipTargets
  GetAbortExecute : Int → Int
  Squeeze : vtkUnstructuredGrid → vtkUnstructuredGrid

/-- One `cell->Clip` call as `Execute` issues it: the cell, the arguments and
the index of the connectivity array (`conn[0]` or `conn[1]`) it fills. -/
structure ClipCall where
  Cell : vtkGenericAdaptorCell
  Arguments : ClipArguments
  Connectivity : Nat
  deriving DecidableEq

/-- Member `vtkGenericClip::CreateDefaultLocator`. -/
def vtkGenericClip.CreateDefaultLocator (c : ClipCollaborators) (self : vtkGenericClip) :
    vtkGenericClip :=
  match self.Locator with
  | none => { self with Locator := some c.NewMergePoints }
  | some _ => self

/-- The array `Execute` creates for an attribute: `CreateDataArray` with the
component type, then `SetNumberOfComponents` and `SetName`. -/
def attributeArray (attr : vtkGenericAttribute) : vtkDataArray :=
  { DataType := attr.ComponentType
    NumberOfComponents := attr.NumberOfComponents
    Name := attr.Name
    Tuples := [] }

/-- The statements `d->AddArray(attributeArray)` followed by
`if(d->GetAttribute(attributeType)==0) d->SetActiveAttribute(d->GetNumberOfArrays()-1,attributeType)`. -/
def addAttributeArray (c : ClipCollaborators) (d : vtkDataSetAttributes)
    (attr : vtkGenericAttribute) : vtkDataSetAttributes :=
  let d := c.AddArray d (attributeArray attr)
  if (c.GetAttribute d attr.AttributeType).isNone then
    c.SetActiveAttribute d (d.GetNumberOfArrays - 1) attr.AttributeType
  else d

/-- Body of the loop `while(i<c)` that prepares the output attributes, for one
entry of the collection. -/
def prepareAttribute (c : ClipCollaborators) (self : vtkGenericClip)
    (attr : vtkGenericAttribute) : vtkGenericClip :=
  if attr.Centering = Centering.vtkPointCentered then
    { self with
      internalPD := addAttributeArray c self.internalPD attr
      secondaryPD := addAttributeArray c self.secondaryPD attr }
  else
    { self with secondaryCD := addAttributeArray c self.secondaryCD attr }

/-- The loop `while(i<c)` over the attribute collection of the input. -/
def prepareAttributes (c : ClipCollaborators) (self : vtkGenericClip)
    (attributes : List vtkGenericAttribute) : vtkGenericClip :=
  attributes.foldl (prepareAttribute c) self

/-- The locals of `Execute` that live across the cell loop, the members of the
filter the loop writes (`Locator`, `internalPD`, `secondaryPD`, `secondaryCD`)
and the list of the `Clip` calls issued so far. `conn1`, `types1`, `locs1` and
`outCD1` are only used when `GenerateClippedOutput` is on. The cell counts
stay far inside the range of their C++ types and are plain integers. -/
structure ExecuteState where
  Locator : vtkPointLocator
  internalPD : vtkDataSetAttributes
  secondaryPD : vtkDataSetAttributes
  secondaryCD : vtkDataSetAttributes
  newPoints : vtkPoints
  outPD : vtkDataSetAttributes
  conn0 : vtkCellArray
  types0 : List VTKCellType
  locs0 : List Int
  outCD0 : vtkDataSetAttributes
  conn1 : vtkCellArray
  types1 : List VTKCellType
  locs1 : List Int
  outCD1 : vtkDataSetAttributes
  num0 : Int
  num1 : Int
  numNew0 : Int
  numNew1 : Int
  npts : Int
  cellType : VTKCellType
  abort : Int
  ClipCalls : List ClipCall
  deriving DecidableEq

/-- The `switch ( cell->GetDimension() )` that sets `cellType` from `npts`;
a dimension outside 0..3 leaves `cellType` as it was. -/
def nextCellType (dimension npts : Int) (cellType : VTKCellType) : VTKCellType :=
  if dimension = 0 then
    (if npts > 1 then VTKCellType.VTK_POLY_VERTEX else VTKCellType.VTK_VERTEX)
  else if dimension = 1 then
    (if npts > 2 then VTKCellType.VTK_POLY_LINE else VTKCellType.VTK_LINE)
  else if dimension = 2 then
    (if npts = 3 then VTKCellType.VTK_TRIANGLE
     else (if npts = 4 then VTKCellType.VTK_QUAD else VTKCellType.VTK_POLYGON))
  else if dimension = 3 then
    (if npts = 4 then VTKCellType.VTK_TETRA else VTKCellType.VTK_WEDGE)
  else cellType

/-- What the loop over the new cells of one output reads and writes. -/
structure NewCellState where
  conn : vtkCellArray
  types : List VTKCellType
  locs : List Int
  npts : Int
  cellType : VTKCellType
  deriving DecidableEq

/-- Body of `for (j=0; j < numNew[i]; j++)`. -/
def recordNewCell (dimension : Int) (s : NewCellState) : NewCellState :=
  let locs := s.locs ++ [s.conn.GetTraversalLocation]
  let next := s.conn.GetNextCell
  let npts := match next.1 with
    | some pts => (pts.length : Int)
    | none => s.npts
  let cellType := nextCellType dimension npts s.cellType
  { conn := next.2, types := s.types ++ [cellType], locs := locs, npts := npts,
    cellType := cellType }

/-- The loop `for (j=0; j < numNew[i]; j++)`, with `n` iterations left. -/
def recordNewCells (dimension : Int) : Nat → NewCellState → NewCellState
  | 0, s => s
  | n + 1, s => recordNewCells dimension n (recordNewCell dimension s)

/-- The arguments both `Clip` calls of `Execute` pass by value. -/
def clipArguments (self : vtkGenericClip) (input : vtkGenericDataSet) : ClipArguments :=
  { Value := self.Value
    ClipFunction := self.ClipFunction
    Attributes := input.Attributes
    Tessellator := input.Tessellator
    InsideOut := self.InsideOut }

/-- Body of the cell loop of `Execute` for the cell `cell` with index `cellId`. -/
def clipCell (c : ClipCollaborators) (self : vtkGenericClip) (input : vtkGenericDataSet)
    (updateTime : Int) (cellId : Int) (cell : vtkGenericAdaptorCell) (st : ExecuteState) :
    ExecuteState :=
  let st := if cellId % updateTime = 0 then { st with abort := c.GetAbortExecute cellId } else st
  -- perform the clipping
  let args := clipArguments self input
  let t := c.Clip cell args
    { Locator := st.Locator, Points := st.newPoints, Connectivity := st.conn0,
      outPD := st.outPD, outCD := st.outCD0, internalPD := st.internalPD,
      secondaryPD := st.secondaryPD, secondaryCD := st.secondaryCD }
  let st := { st with
    Locator := t.Locator, newPoints := t.Points, conn0 := t.Connectivity, outPD := t.outPD,
    outCD0 := t.outCD, internalPD := t.internalPD, secondaryPD := t.secondaryPD,
    secondaryCD := t.secondaryCD,
    ClipCalls := st.ClipCalls ++ [ClipCall.mk cell args 0] }
  let st := { st with numNew0 := st.conn0.GetNumberOfCells - st.num0 }
  let st := { st with num0 := st.conn0.GetNumberOfCells }
  let st :=
    if self.GenerateClippedOutput ≠ 0 then
      let args := clipArguments self input
      let t := c.Clip cell args
        { Locator := st.Locator, Points := st.newPoints, Connectivity := st.conn1,
          outPD := st.outPD, outCD := st.outCD1, internalPD := st.internalPD,
          secondaryPD := st.secondaryPD, secondaryCD := st.secondaryCD }
      let st := { st with
        Locator := t.Locator, newPoints := t.Points, conn1 := t.Connectivity, outPD := t.outPD,
        outCD1 := t.outCD, internalPD := t.internalPD, secondaryPD := t.secondaryPD,
        secondaryCD := t.secondaryCD,
        ClipCalls := st.ClipCalls ++ [ClipCall.mk cell args 1] }
      let st := { st with numNew1 := st.conn1.GetNumberOfCells - st.num1 }
      { st with num1 := st.conn1.GetNumberOfCells }
    else st
  -- for both outputs
  let r0 := recordNewCells cell.Dimension st.numNew0.toNat
    { conn := st.conn0, types := st.types0, locs := st.locs0, npts := st.npts,
      cellType := st.cellType }
  let st := { st with
    conn0 := r0.conn, types0 := r0.types, locs0 := r0.locs, npts := r0.npts,
    cellType := r0.cellType }
  if self.GenerateClippedOutput ≠ 0 then
    let r1 := recordNewCells cell.Dimension st.numNew1.toNat
      { conn := st.conn1, types := st.types1, locs := st.locs1, npts := st.npts,
        cellType := st.cellType }
    { st with
      conn1 := r1.conn, types1 := r1.types, locs1 := r1.locs, npts := r1.npts,
      cellType := r1.cellType }
  else st

/-- The cell loop
`for (cellId = 0, cellIt->Begin(); !cellIt->IsAtEnd() && !abort; cellId++, cellIt->Next())`
from the cell with index `cellId` on; the list holds the cells the iterator has
not visited yet. -/
def clipCells (c : ClipCollaborators) (self : vtkGenericClip) (input : vtkGenericDataSet)
    (updateTime : Int) : Int → List vtkGenericAdaptorCell → ExecuteState → ExecuteState
  | _, [], st => st
  | cellId, cell :: rest, st =>
    if st.abort ≠ 0 then st
    else clipCells c self input updateTime (cellId + 1) rest
      (clipCell c self input updateTime cellId cell st)

/-- What `Execute` leaves: the filter, the messages of `vtkErrorMacro`, and the
`Clip` calls it issued, in order. -/
structure ExecuteResult where
  self : vtkGenericClip
  Errors : List String
  ClipCalls : List ClipCall
  deriving DecidableEq

/-- The part of `Execute` from "allocate the output and associated helper
classes" up to the cell loop: the state the cell loop starts in. -/
def beforeCellLoop (c : ClipCollaborators) (self : vtkGenericClip) (input : vtkGenericDataSet) :
    ExecuteState :=
  let numCells := input.GetNumberOfCells
  let estimatedSize := numCells
  let estimatedSize := estimatedSize / 1024 * 1024
  let estimatedSize := if estimatedSize < 1024 then 1024 else estimatedSize
  let newPoints : vtkPoints := { Data := [] }
  -- locator used to merge potentially duplicate points
  let self := self.CreateDefaultLocator c
  let locator := c.InitPointInsertion (self.Locator.getD c.NewMergePoints) newPoints input.Bounds
  -- prepare the output attributes
  let self := prepareAttributes c self input.Attributes
  let outPD := c.InterpolateAllocate self.Output.PointData self.secondaryPD estimatedSize
    (estimatedSize / 2)
  let outCD0 := c.CopyAllocate self.Output.CellData self.secondaryCD estimatedSize
    (estimatedSize / 2)
  let outCD1 :=
    if self.GenerateClippedOutput ≠ 0 then
      c.CopyAllocate self.GetClippedOutput.CellData self.secondaryCD estimatedSize
        (estimatedSize / 2)
    else self.GetClippedOutput.CellData
  { Locator := locator
    internalPD := self.internalPD
    secondaryPD := self.secondaryPD
    secondaryCD := self.secondaryCD
    newPoints := newPoints
    outPD := outPD
    conn0 := vtkCellArray.New
    types0 := []
    locs0 := []
    outCD0 := outCD0
    conn1 := vtkCellArray.New
    types1 := []
    locs1 := []
    outCD1 := outCD1
    num0 := 0
    num1 := 0
    numNew0 := 0
    numNew1 := 0
    npts := 0
    cellType := VTKCellType.VTK_EMPTY_CELL
    abort := 0
    ClipCalls := [] }

/-- The part of `Execute` after the cell loop: the outputs receive the points
and the cells, the locator is released, the output is squeezed. -/
def afterCellLoop (c : ClipCollaborators) (self : vtkGenericClip) (st : ExecuteState) :
    ExecuteResult :=
  let output : vtkUnstructuredGrid :=
    { Points := some st.newPoints, Types := st.types0, Locations := st.locs0,
      Connectivity := st.conn0, PointData := st.outPD, CellData := st.outCD0 }
  let clippedOutput : vtkUnstructuredGrid :=
    if self.GenerateClippedOutput ≠ 0 then
      { self.GetClippedOutput with
        Points := some st.newPoints, Types := st.types1, Locations := st.locs1,
        Connectivity := st.conn1, CellData := st.outCD1 }
    else self.GetClippedOutput
  { self := { self with
      Output := c.Squeeze output
      ClippedOutput := clippedOutput
      Locator := some (c.LocatorRelease st.Locator)
      internalPD := st.internalPD
      secondaryPD := st.secondaryPD
      secondaryCD := st.secondaryCD }
    Errors := []
    ClipCalls := st.ClipCalls }

/-- The part of `Execute` that follows the three early returns: allocation,
attribute preparation, the cell loop over all cells of the input, and the
hand-over to the outputs. -/
def ExecuteClip (c : ClipCollaborators) (self : vtkGenericClip) (input : vtkGenericDataSet) :
    ExecuteResult :=
  let numCells := input.GetNumberOfCells
  let updateTime := numCells / 20 + 1
  afterCellLoop c self (clipCells c self input updateTime 0 input.Cells (beforeCellLoop c self input))

/-- Member `vtkGenericClip::Execute`. -/
def vtkGenericClip.Execute (c : ClipCollaborators) (self : vtkGenericClip) : ExecuteResult :=
  match self.Input with
  | none => { self := self, Errors := [], ClipCalls := [] }
  | some input =>
    let numPts := input.NumberOfPoints
    if numPts < 1 then
      { self := self, Errors := ["No data to clip"], ClipCalls := [] }
    else if self.ClipFunction.isNone ∧ self.GenerateClipScalars ≠ 0 then
      { self := self,
        Errors := ["Cannot generate clip scalars if no clip function defined"],
        ClipCalls := [] }
    else ExecuteClip c self input

/-- The modification times `GetMTime` chooses from: the superclass time, the
clip function's when one is set, the locator's when one is set. -/
def vtkGenericClip.presentMTimes (self : vtkGenericClip) : List Nat :=
  self.MTime :: ((self.ClipFunction.map (fun cf => cf.MTime)).toList ++
    (self.Locator.map (fun loc => loc.MTime)).toList)

/-! ## vtkValuePass: data model -/

/-- The information keys: the seven keys vtkValuePass declares with
`vtkInformationKeyMacro`, and any key of another class. -/
inductive vtkInformationKey where
  | RENDER_VALUES
  | SCALAR_MODE
  | ARRAY_MODE
  | ARRAY_ID
  | ARRAY_NAME
  | ARRAY_COMPONENT
  | SCALAR_RANGE
  | Other (name : String)
  deriving DecidableEq

/-- The value stored under an Integer, String or DoubleVector key. -/
inductive vtkInformationValue where
  | Integer (value : Int)
  | String (value : String)
  | DoubleVector (value : List Rat)
  deriving DecidableEq

/-- vtkInformation: the map from keys to values that `Set`, `Remove` and `Has`
present, kept as an association list with one entry per key. -/
structure vtkInformation where
  Entries : List (vtkInformationKey × vtkInformationValue)
  deriving DecidableEq

/-- Result of `vtkInformation::New()`. -/
def vtkInformation.New : vtkInformation := { Entries := [] }

/-- Member `Has(key)`. -/
def vtkInformation.Has (info : vtkInformation) (key : vtkInformationKey) : Bool :=
  info.Entries.any (fun e => decide (e.1 = key))

/-- Member `Remove(key)`. -/
def vtkInformation.Remove (info : vtkInformation) (key : vtkInformationKey) : vtkInformation :=
  { Entries := info.Entries.filter (fun e => decide (e.1 ≠ key)) }

/-- Member `Set(key, value)`: the entry of `key` is replaced. -/
def vtkInformation.Set (info : vtkInformation) (key : vtkInformationKey)
    (value : vtkInformationValue) : vtkInformation :=
  { Entries := (info.Remove key).Entries ++ [(key, value)] }

/-- vtkMapper: the scalar-visibility flag. -/
structure vtkMapper where
  ScalarVisibility : Int
  deriving DecidableEq

/-- vtkActor: the mapper `GetMapper()` returns. -/
structure vtkActor where
  Mapper : vtkMapper
  deriving DecidableEq

/-- vtkProp: `Actor` is what `vtkActor::SafeDownCast(p)` returns (`none` for a
prop that is not an actor), `PropertyKeys` what `GetPropertyKeys()` returns. -/
structure vtkProp where
  Actor : Option vtkActor
  PropertyKeys : Option vtkInformation
  deriving DecidableEq

/-- vtkRenderState: the prop array (`GetPropArrayCount()` is its length). -/
structure vtkRenderState where
  PropArray : List vtkProp
  deriving DecidableEq

/-- vtkFrameBufferObject2: the cached size `GetLastSize(false)` returns. -/
structure vtkFrameBufferObject2 where
  LastSize : Int × Int
  deriving DecidableEq

/-- vtkFloatArray: number of components and number of tuples. -/
structure vtkFloatArray where
  NumberOfComponents : Int
  NumberOfTuples : Int
  deriving DecidableEq

/-- Class `vtkValuePass::vtkInternals`. -/
structure vtkInternals where
  FieldAssociation : Int
  FieldAttributeType : Int
  FieldName : String
  FieldNameSet : Bool
  Component : Int
  ScalarRange : Rat × Rat
  ScalarRangeSet : Bool
  Values : vtkFloatArray
  deriving DecidableEq

/-- Constructor `vtkInternals()`. -/
def vtkInternals.New : vtkInternals :=
  { FieldAssociation := 0
    FieldAttributeType := 0
    FieldName := ""
    FieldNameSet := false
    Component := 0
    ScalarRange := (0, -1)
    ScalarRangeSet := false
    Values := { NumberOfComponents := 1, NumberOfTuples := 0 } }

/-- The render pass vtkValuePass. `RenderingMode` holds the integer value of
the mode enumeration. -/
structure vtkValuePass where
  ValueFrameBO : Option vtkFrameBufferObject2
  ValuePassResourcesAllocated : Bool
  RenderingMode : Int
  NumberOfRenderedProps : Int
  Internals : vtkInternals
  deriving DecidableEq

/-- Constructor `vtkValuePass::vtkValuePass()`; `INVERTIBLE_LUT` is the value of
that enumerator and `rendered` what the superclass leaves in
`NumberOfRenderedProps`. -/
def vtkValuePass.New (INVERTIBLE_LUT : Int) (rendered : Int) : vtkValuePass :=
  { ValueFrameBO := none
    ValuePassResourcesAllocated := false
    RenderingMode := INVERTIBLE_LUT
    NumberOfRenderedProps := rendered
    Internals := vtkInternals.New }

/-! ## vtkValuePass::RenderOpaqueGeometry -/

/-- What lies outside vtkValuePass.cxx in `RenderOpaqueGeometry`:
`RenderOpaqueGeometry p` is the count `p->RenderOpaqueGeometry(renderer)`
returns for the prop as the pass has prepared it (the prop's own rendering is
taken to leave its property keys and its mapper's scalar visibility alone);
`Stray i` is the value found when `scalarVisibilities[i]` is read at an index
`i` the vector does not have. -/
structure RenderCollaborators where
  RenderOpaqueGeometry : vtkProp → Int
  Stray : Nat → Int

/-- The seven `keys->Set(...)` calls of the first loop. -/
def setValueKeys (pass : vtkValuePass) (keys : vtkInformation) : vtkInformation :=
  let keys := keys.Set vtkInformationKey.RENDER_VALUES (vtkInformationValue.Integer pass.RenderingMode)
  let keys := keys.Set vtkInformationKey.SCALAR_MODE
    (vtkInformationValue.Integer pass.Internals.FieldAssociation)
  let keys := keys.Set vtkInformationKey.ARRAY_MODE
    (vtkInformationValue.Integer (if pass.Internals.FieldNameSet then 1 else 0))
  let keys := keys.Set vtkInformationKey.ARRAY_ID
    (vtkInformationValue.Integer pass.Internals.FieldAttributeType)
  let keys := keys.Set vtkInformationKey.ARRAY_NAME
    (vtkInformationValue.String pass.Internals.FieldName)
  let keys := keys.Set vtkInformationKey.ARRAY_COMPONENT
    (vtkInformationValue.Integer pass.Internals.Component)
  let keys := keys.Set vtkInformationKey.SCALAR_RANGE
    (vtkInformationValue.DoubleVector [pass.Internals.ScalarRange.1, pass.Internals.ScalarRange.2])
  keys

/-- The seven `keys->Remove(...)` calls of the second loop. -/
def removeValueKeys (keys : vtkInformation) : vtkInformation :=
  let keys := keys.Remove vtkInformationKey.RENDER_VALUES
  let keys := keys.Remove vtkInformationKey.SCALAR_MODE
  let keys := keys.Remove vtkInformationKey.ARRAY_MODE
  let keys := keys.Remove vtkInformationKey.ARRAY_ID
  let keys := keys.Remove vtkInformationKey.ARRAY_NAME
  let keys := keys.Remove vtkInformationKey.ARRAY_COMPONENT
  let keys := keys.Remove vtkInformationKey.SCALAR_RANGE
  keys

/-- State of the first loop: the props already visited (as the loop left
them), the vector `scalarVisibilities`, and `NumberOfRenderedProps`. -/
structure RenderLoopState where
  Done : List vtkProp
  scalarVisibilities : List Int
  NumberOfRenderedProps : Int
  deriving DecidableEq

/-- Body of the first loop for the prop `p`. -/
def renderProp (pass : vtkValuePass) (c : RenderCollaborators) (st : RenderLoopState)
    (p : vtkProp) : RenderLoopState :=
  -- Cache scalar visibility state and turn it on
  let scalarVisibilities :=
    match p.Actor with
    | some a => st.scalarVisibilities ++ [a.Mapper.ScalarVisibility]
    | none => st.scalarVisibilities
  let p : vtkProp :=
    match p.Actor with
    | some a => { p with Actor := some { a with Mapper := { a.Mapper with ScalarVisibility := 1 } } }
    | none => p
  let keys := match p.PropertyKeys with
    | some keys => keys
    | none => vtkInformation.New
  let keys := setValueKeys pass keys
  let p := { p with PropertyKeys := some keys }
  let rendered := c.RenderOpaqueGeometry p
  { Done := st.Done ++ [p]
    scalarVisibilities := scalarVisibilities
    NumberOfRenderedProps := st.NumberOfRenderedProps + rendered }

/-- State of the second loop: the props already visited, the indices at which
`scalarVisibilities[i]` was read outside the vector, and the indices at which
`GetPropertyKeys()` returned null just before `keys->Remove`. -/
structure RestoreLoopState where
  Done : List vtkProp
  OutOfBounds : List Nat
  NullKeys : List Nat
  deriving DecidableEq

/-- Body of the second loop for the prop `p` at index `i`. A null `keys`
ends the program in the source; here the index is recorded and the prop keeps
its null keys. -/
def restoreProp (c : RenderCollaborators) (scalarVisibilities : List Int)
    (st : RestoreLoopState) (i : Nat) (p : vtkProp) : RestoreLoopState :=
  -- Restore scalar visibility state
  let st :=
    match p.Actor with
    | some _ => if i < scalarVisibilities.length then st
                else { st with OutOfBounds := st.OutOfBounds ++ [i] }
    | none => st
  let p : vtkProp :=
    match p.Actor with
    | some a =>
      { p with Actor := some { a with Mapper :=
          { a.Mapper with ScalarVisibility := scalarVisibilities.getD i (c.Stray i) } } }
    | none => p
  match p.PropertyKeys with
  | some keys =>
    { st with Done := st.Done ++ [{ p with PropertyKeys := some (removeValueKeys keys) }] }
  | none => { st with Done := st.Done ++ [p], NullKeys := st.NullKeys ++ [i] }

/-- The second loop from index `i` on; the list holds `GetPropArray()[i]`,
`GetPropArray()[i+1]`, and so on up to the end of the array. -/
def restoreProps (c : RenderCollaborators) (scalarVisibilities : List Int) :
    Nat → List vtkProp → RestoreLoopState → RestoreLoopState
  | _, [], st => st
  | i, p :: rest, st =>
    restoreProps c scalarVisibilities (i + 1) rest (restoreProp c scalarVisibilities st i p)

/-- What `RenderOpaqueGeometry` leaves: the pass, the prop array, and the two
records of `RestoreLoopState`. -/
structure RenderOpaqueResult where
  self : vtkValuePass
  PropArray : List vtkProp
  OutOfBounds : List Nat
  NullKeys : List Nat
  deriving DecidableEq

/-- Member `vtkValuePass::RenderOpaqueGeometry`. -/
def vtkValuePass.RenderOpaqueGeometry (c : RenderCollaborators) (self : vtkValuePass)
    (s : vtkRenderState) : RenderOpaqueResult :=
  let first := s.PropArray.foldl (renderProp self c)
    { Done := [], scalarVisibilities := [], NumberOfRenderedProps := self.NumberOfRenderedProps }
  -- Remove set keys
  let second := restoreProps c first.scalarVisibilities 0 first.Done
    { Done := [], OutOfBounds := [], NullKeys := [] }
  { self := { self with NumberOfRenderedProps := first.NumberOfRenderedProps }
    PropArray := second.Done
    OutOfBounds := second.OutOfBounds
    NullKeys := second.NullKeys }

/-! ## vtkValuePass: the float image -/

/-- Member `vtkValuePass::GetFloatImageExtents`; `none` when `ValueFrameBO` is
null. -/
def vtkValuePass.GetFloatImageExtents (self : vtkValuePass) : Option (List Int) :=
  match self.ValueFrameBO with
  | none => none
  | some fbo =>
    let size := fbo.LastSize
    some [0, wrapInt (size.1 - 1), 0, wrapInt (size.2 - 1), 0, 0]

/-- Member `vtkValuePass::GetFloatImageDataArray`: the pass with
`Internals->Values` resized, and the array returned; `none` when
`ValueFrameBO` is null. The pixel values `glReadPixels` stores are not part of
the record. -/
def vtkValuePass.GetFloatImageDataArray (self : vtkValuePass) :
    Option (vtkValuePass × vtkFloatArray) :=
  match self.ValueFrameBO with
  | none => none
  | some fbo =>
    let size := fbo.LastSize
    let values := { self.Internals.Values with NumberOfTuples := wrapInt (size.1 * size.2) }
    some ({ self with Internals := { self.Internals with Values := values } }, values)

/-- Number of positions an extent `[x0, x1, y0, y1, z0, z1]` describes. -/
def extentPositions (ext : List Int) : Int :=
  (ext.getD 1 0 - ext.getD 0 0 + 1) * (ext.getD 3 0 - ext.getD 2 0 + 1) *
    (ext.getD 5 0 - ext.getD 4 0 + 1)

/-- The seven keys vtkValuePass sets on a prop for rendering. -/
def valueKeys : List vtkInformationKey :=
  [vtkInformationKey.RENDER_VALUES, vtkInformationKey.SCALAR_MODE, vtkInformationKey.ARRAY_MODE,
   vtkInformationKey.ARRAY_ID, vtkInformationKey.ARRAY_NAME, vtkInformationKey.ARRAY_COMPONENT,
   vtkInformationKey.SCALAR_RANGE]

/-- The prop has property keys and they hold none of the seven keys of the
pass. -/
def KeysRemoved (p : vtkProp) : Prop :=
  ∃ keys, p.PropertyKeys = some keys ∧ ∀ k ∈ valueKeys, keys.Has k = false

/-- The scalar visibility of each prop of an array: `none` for a prop that is
not an actor. -/
def scalarVisibilityOf (props : List vtkProp) : List (Option Int) :=
  props.map (fun p => p.Actor.map (fun a => a.Mapper.ScalarVisibility))

/-- A reading `f` of an attribute container, taken on `internalPD`,
`secondaryPD` and `secondaryCD` of the filter. -/
def vtkGenericClip.perContainer {α : Type} (f : vtkDataSetAttributes → α)
    (self : vtkGenericClip) : α × α × α :=
  (f self.internalPD, f self.secondaryPD, f self.secondaryCD)

/-- The same reading on the three containers a `Clip` call receives. -/
def ClipTargets.perContainer {α : Type} (f : vtkDataSetAttributes → α)
    (t : ClipTargets) : α × α × α :=
  (f t.internalPD, f t.secondaryPD, f t.secondaryCD)

/-- The same reading on the three containers during the cell loop. -/
def ExecuteState.perContainer {α : Type} (f : vtkDataSetAttributes → α)
    (st : ExecuteState) : α × α × α :=
  (f st.internalPD, f st.secondaryPD, f st.secondaryCD)

/-- The numbers of arrays held by `internalPD`, `secondaryPD` and
`secondaryCD` of the filter. -/
def vtkGenericClip.arrayCounts (self : vtkGenericClip) : Int × Int × Int :=
  self.perContainer vtkDataSetAttributes.GetNumberOfArrays

/-- The names of the arrays a container holds, in order. -/
def vtkDataSetAttributes.names (d : vtkDataSetAttributes) : List (Option String) :=
  d.Arrays.map (fun a => a.Name)

/-- The names of the arrays held by `internalPD`, `secondaryPD` and
`secondaryCD` of the filter. -/
def vtkGenericClip.arrayNames (self : vtkGenericClip) :
    List (Option String) × List (Option String) × List (Option String) :=
  self.perContainer vtkDataSetAttributes.names

/-- An array with the name of the attribute is among the names `n` of the
containers `Execute` adds the attribute to: `internalPD` and `secondaryPD` for
a point-centered attribute, `secondaryCD` for any other. -/
def Held (n : List (Option String) × List (Option String) × List (Option String))
    (attr : vtkGenericAttribute) : Prop :=
  if attr.Centering = Centering.vtkPointCentered then attr.Name ∈ n.1 ∧ attr.Name ∈ n.2.1
  else attr.Name ∈ n.2.2

/-- Collaborators that keep what the containers hold: `AddArray` never lowers
the number of arrays, `SetActiveAttribute` and `Clip` leave it as it is. -/
def KeepsArrays (c : ClipCollaborators) : Prop :=
  (∀ d a, d.GetNumberOfArrays ≤ (c.AddArray d a).GetNumberOfArrays) ∧
  (∀ d i t, (c.SetActiveAttribute d i t).GetNumberOfArrays = d.GetNumberOfArrays) ∧
  (∀ cell args t,
    (c.Clip cell args t).perContainer vtkDataSetAttributes.GetNumberOfArrays =
      t.perContainer vtkDataSetAttributes.GetNumberOfArrays)

/-- Collaborators whose `AddArray` replaces an array of the same name: adding
a named array to a container that holds its name leaves the names as they are,
adding any array keeps the names held and makes the new name one of them, and
`SetActiveAttribute` and `Clip` leave the names as they are. -/
def ReplacesByName (c : ClipCollaborators) : Prop :=
  (∀ d a, a.Name ≠ none → a.Name ∈ d.names → (c.AddArray d a).names = d.names) ∧
  (∀ d a, a.Name ∈ (c.AddArray d a).names) ∧
  (∀ d a n, n ∈ d.names → n ∈ (c.AddArray d a).names) ∧
  (∀ d i t, (c.SetActiveAttribute d i t).names = d.names) ∧
  (∀ cell args t,
    (c.Clip cell args t).perContainer vtkDataSetAttributes.names =
      t.perContainer vtkDataSetAttributes.names)

/-- `Execute` returns before it adds an array: the input is null, has fewer
than 1 point or no attributes, or no clip function is set while
`GenerateClipScalars` is on. -/
def AddsNoArray (self : vtkGenericClip) : Prop :=
  self.Input = none ∨
  ∃ input, self.Input = some input ∧
    (input.NumberOfPoints < 1 ∨ (self.ClipFunction = none ∧ self.GenerateClipScalars ≠ 0) ∨
      input.Attributes = [])

/-- C++ logical negation of an `int` flag. -/
def logicalNot (x : Int) : Int := if x = 0 then 1 else 0

/-- The prop as the body of the first loop leaves it: scalar visibility on
when it is an actor, and the seven keys set on its property keys (new ones
when it had none). -/
def preparedProp (pass : vtkValuePass) (p : vtkProp) : vtkProp :=
  { Actor := p.Actor.map (fun a => { a with Mapper := { a.Mapper with ScalarVisibility := 1 } })
    PropertyKeys := some (setValueKeys pass (p.PropertyKeys.getD vtkInformation.New)) }

/-- The values the first loop pushes on `scalarVisibilities` for a prop array:
one per actor, in order. -/
def cachedVisibilities (props : List vtkProp) : List Int :=
  props.flatMap (fun p => (p.Actor.map (fun a => a.Mapper.ScalarVisibility)).toList)

/-! ## Concrete inputs -/

/-- Collaborators for the concrete runs below: `AddArray` replaces the array
of the same name when there is one and appends otherwise, `Clip` appends one
cell to the connectivity it is given, the allocation calls copy the array
layout of their source, the abort flag is never raised. -/
def sampleCollaborators : ClipCollaborators :=
  { NewMergePoints := { MTime := 0, Inserted := [] }
    InitPointInsertion := fun l _ _ => { l with Inserted := [] }
    LocatorRelease := fun l => { l with Inserted := [] }
    AddArray := fun d a =>
      if a.Name.isSome ∧ d.Arrays.any (fun b => decide (b.Name = a.Name)) then
        { d with Arrays := d.Arrays.map (fun b => if b.Name = a.Name then a else b) }
      else { d with Arrays := d.Arrays ++ [a] }
    GetAttribute := fun d t =>
      match d.AttributeIndices.lookup t with
      | some i => d.Arrays.get? i.toNat
      | none => none
    SetActiveAttribute := fun d i t =>
      { d with AttributeIndices := (t, i) :: d.AttributeIndices }
    InterpolateAllocate := fun _ src _ _ =>
      { src with Arrays := src.Arrays.map (fun a => { a with Tuples := [] }) }
    CopyAllocate := fun _ src _ _ =>
      { src with Arrays := src.Arrays.map (fun a => { a with Tuples := [] }) }
    Clip := fun cell _ t =>
      { t with Connectivity :=
          { t.Connectivity with Cells := t.Connectivity.Cells ++ [[(cell.Id : Int)]] } }
    GetAbortExecute := fun _ => 0
    Squeeze := fun g => g }

/-- A data set with one point, one cell of dimension 3 and no attributes. -/
def oneCellDataSet : vtkGenericDataSet :=
  { NumberOfPoints := 1
    Cells := [{ Id := 0, Dimension := 3 }]
    Attributes := []
    Bounds := [0, 1, 0, 1, 0, 1]
    Tessellator := 0 }

/-- A filter with a clip function, `InsideOut` off (as constructed) and
`GenerateClippedOutput` on, whose input is `oneCellDataSet`. -/
def clipWithClippedOutput : vtkGenericClip :=
  { vtkGenericClip.New (some { MTime := 1 }) 0 with
    Input := some oneCellDataSet, GenerateClippedOutput := 1 }

/-- A data set with one point, no cells and one point-centered attribute. -/
def onePointAttributeDataSet : vtkGenericDataSet :=
  { NumberOfPoints := 1
    Cells := []
    Attributes := [{ Name := some "scalars", AttributeType := 0,
                     Centering := Centering.vtkPointCentered, ComponentType := 11,
                     NumberOfComponents := 1 }]
    Bounds := [0, 1, 0, 1, 0, 1]
    Tessellator := 0 }

/-- A freshly constructed filter whose input is `onePointAttributeDataSet`. -/
def freshClip : vtkGenericClip :=
  { vtkGenericClip.New none 0 with Input := some onePointAttributeDataSet }

/-- A freshly constructed filter whose input is `oneCellDataSet`. -/
def freshClipOneCell : vtkGenericClip :=
  { vtkGenericClip.New none 0 with Input := some oneCellDataSet }


/-- A value pass whose frame buffer has the cached size `(w, h)`. -/
def passWithSize (w h : Int) : vtkValuePass :=
  { vtkValuePass.New 1 0 with ValueFrameBO := some { LastSize := (w, h) } }

/-- A prop that is not an actor, without property keys. -/
def plainProp : vtkProp := { Actor := none, PropertyKeys := none }

/-- An actor whose mapper has scalar visibility `v`, without property keys. -/
def actorProp (v : Int) : vtkProp :=
  { Actor := some { Mapper := { ScalarVisibility := v } }, PropertyKeys := none }

/-- A render state with a prop that is not an actor followed by an actor whose
scalars are not visible. -/
def propThenActor : vtkRenderState := { PropArray := [plainProp, actorProp 0] }

/-- A render state with a prop that is not an actor followed by two actors,
the first with scalar visibility 0 and the second with 1. -/
def propThenTwoActors : vtkRenderState :=
  { PropArray := [plainProp, actorProp 0, actorProp 1] }

/-! ## Theorems: outputs and modification time of vtkGenericClip -/

/-- C6: `GetNumberOfOutputs` returns 2 exactly when `GenerateClippedOutput` is
non-zero and 1 exactly when it is zero, for every filter state, and a freshly
constructed filter reports 1. -/
theorem GetNumberOfOutputs_spec (self : vtkGenericClip) (cf : Option vtkImplicitFunction)
    (mtime : Nat) :
    (self.GetNumberOfOutputs = 2 ↔ self.GenerateClippedOutput ≠ 0) ∧
    (self.GetNumberOfOutputs = 1 ↔ self.GenerateClippedOutput = 0) ∧
    (vtkGenericClip.New cf mtime).GetNumberOfOutputs = 1 := by
  refine ⟨?_, ?_, ?_⟩
  · unfold vtkGenericClip.GetNumberOfOutputs
    by_cases h : self.GenerateClippedOutput = 0 <;> simp [h]
  · unfold vtkGenericClip.GetNumberOfOutputs
    by_cases h : self.GenerateClippedOutput = 0 <;> simp [h]
  · simp [vtkGenericClip.GetNumberOfOutputs, vtkGenericClip.New]

/-- C7: `GetMTime` returns the maximum of the superclass time, the clip
function's time when one is set and the locator's time when one is set: the
result is one of the times present and no time present exceeds it; in
particular it is never below the clip function's time. -/
theorem GetMTime_spec (self : vtkGenericClip) :
    self.GetMTime ∈ self.presentMTimes ∧
    (∀ t ∈ self.presentMTimes, t ≤ self.GetMTime) ∧
    (∀ cf, self.ClipFunction = some cf → cf.MTime ≤ self.GetMTime) ∧
    (∀ loc, self.Locator = some loc → loc.MTime ≤ self.GetMTime) ∧
    self.MTime ≤ self.GetMTime := by
  unfold vtkGenericClip.GetMTime vtkGenericClip.presentMTimes
  cases hcf : self.ClipFunction with
  | none =>
    cases hloc : self.Locator with
    | none => simp
    | some loc =>
      by_cases h : loc.MTime > self.MTime
      · simp [h]; omega
      · simp [h]; omega
  | some cf =>
    cases hloc : self.Locator with
    | none =>
      by_cases h : cf.MTime > self.MTime
      · simp [h]; omega
      · simp [h]; omega
    | some loc =>
      by_cases h : cf.MTime > self.MTime
      · by_cases h2 : loc.MTime > cf.MTime
        · simp [h, h2]; omega
        · simp [h, h2]; omega
      · by_cases h2 : loc.MTime > self.MTime
        · simp [h, h2]; omega
        · simp [h, h2]; omega

/-! ## Theorems: the float image of vtkValuePass -/

/-- A value within the range of `int` is not changed by the wrap-around. -/
theorem wrapInt_of_range (x : Int) (h0 : 0 ≤ x) (h1 : x ≤ INT_MAX) : wrapInt x = x := by
  unfold wrapInt
  unfold INT_MAX at h1
  omega

/-- C5, as stated, fails for a frame buffer of size 65536 x 65536: the extent
describes 4294967296 positions, while the product `size[0] * size[1]`,
computed in `int`, sets 0 tuples. -/
theorem GetFloatImageDataArray_tuples_overflow :
    (1 : Int) ≤ 65536 ∧
    (passWithSize 65536 65536).GetFloatImageExtents = some [0, 65535, 0, 65535, 0, 0] ∧
    ((passWithSize 65536 65536).GetFloatImageDataArray.map (fun r => r.2.NumberOfTuples)) =
      some 0 ∧
    extentPositions [0, 65535, 0, 65535, 0, 0] = 4294967296 ∧
    ((passWithSize 65536 65536).GetFloatImageDataArray.map (fun r => r.2.NumberOfTuples)) ≠
      ((passWithSize 65536 65536).GetFloatImageExtents.map extentPositions) := by
  refine ⟨by decide, ?_, ?_, ?_, ?_⟩
  · simp [passWithSize, vtkValuePass.GetFloatImageExtents, wrapInt]
  · simp [passWithSize, vtkValuePass.GetFloatImageDataArray, wrapInt]
  · simp [extentPositions]
  · simp [passWithSize, vtkValuePass.GetFloatImageExtents, vtkValuePass.GetFloatImageDataArray,
      wrapInt, extentPositions]

/-- C5 (amended): for a frame buffer whose last size is `(w, h)` with `w >= 1`,
`h >= 1` and `w * h` within the range of `int`, `GetFloatImageExtents` returns
`[0, w-1, 0, h-1, 0, 0]`, and `GetFloatImageDataArray` returns the array of the
pass with its component count unchanged (1 from construction on) and `w * h`
tuples, the number of positions the extent describes. -/
theorem GetFloatImage_one_scalar_per_pixel (self : vtkValuePass) (fbo : vtkFrameBufferObject2)
    (w h : Int) (hfbo : self.ValueFrameBO = some fbo) (hsize : fbo.LastSize = (w, h))
    (hw : 1 ≤ w) (hh : 1 ≤ h) (hfit : w * h ≤ INT_MAX) :
    self.GetFloatImageExtents = some [0, w - 1, 0, h - 1, 0, 0] ∧
    (∃ r, self.GetFloatImageDataArray = some r ∧
      r.2.NumberOfTuples = w * h ∧
      r.2.NumberOfComponents = self.Internals.Values.NumberOfComponents ∧
      r.1.Internals.Values = r.2) ∧
    w * h = extentPositions [0, w - 1, 0, h - 1, 0, 0] ∧
    vtkInternals.New.Values.NumberOfComponents = 1 := by
  have hwle : w ≤ w * h := by nlinarith
  have hhle : h ≤ w * h := by nlinarith
  have hpos : 0 ≤ w * h := by nlinarith
  refine ⟨?_, ?_, ?_, rfl⟩
  · simp only [vtkValuePass.GetFloatImageExtents, hfbo, hsize]
    rw [wrapInt_of_range (w - 1) (by omega) (by omega),
      wrapInt_of_range (h - 1) (by omega) (by omega)]
  · simp only [vtkValuePass.GetFloatImageDataArray, hfbo, hsize]
    exact ⟨_, rfl, wrapInt_of_range _ hpos hfit, rfl, rfl⟩
  · simp [extentPositions]

/-- C5 (amended) at a 640 x 480 frame buffer. -/
theorem GetFloatImage_one_scalar_per_pixel_witness :
    (passWithSize 640 480).GetFloatImageExtents = some [0, 640 - 1, 0, 480 - 1, 0, 0] ∧
    (∃ r, (passWithSize 640 480).GetFloatImageDataArray = some r ∧
      r.2.NumberOfTuples = 640 * 480 ∧
      r.2.NumberOfComponents = (passWithSize 640 480).Internals.Values.NumberOfComponents ∧
      r.1.Internals.Values = r.2) ∧
    (640 : Int) * 480 = extentPositions [0, 640 - 1, 0, 480 - 1, 0, 0] ∧
    vtkInternals.New.Values.NumberOfComponents = 1 :=
  GetFloatImage_one_scalar_per_pixel (passWithSize 640 480) { LastSize := (640, 480) } 640 480
    rfl rfl (by decide) (by decide) (by decide)

/-! ## Theorems: vtkValuePass::RenderOpaqueGeometry -/

/-- C3 fails on the code. With a prop that is not an actor before an actor, the
restore step reads `scalarVisibilities[1]` from a vector of one element, so
the actor's mapper ends with whatever that read yields instead of its value 0.
With two actors after such a prop, the first actor (visibility 0 before the
call) is left with the value cached for the second one, 1, and the read for the
second actor is outside the vector. -/
theorem RenderOpaqueGeometry_restore_index (c : RenderCollaborators) (self : vtkValuePass) :
    scalarVisibilityOf propThenActor.PropArray = [none, some 0] ∧
    (self.RenderOpaqueGeometry c propThenActor).OutOfBounds = [1] ∧
    scalarVisibilityOf (self.RenderOpaqueGeometry c propThenActor).PropArray =
      [none, some (c.Stray 1)] ∧
    scalarVisibilityOf propThenTwoActors.PropArray = [none, some 0, some 1] ∧
    (self.RenderOpaqueGeometry c propThenTwoActors).OutOfBounds = [2] ∧
    scalarVisibilityOf (self.RenderOpaqueGeometry c propThenTwoActors).PropArray =
      [none, some 1, some (c.Stray 2)] := by
  refine ⟨rfl, rfl, rfl, rfl, rfl, rfl⟩

/-- The body of the first loop appends the prepared prop, pushes the scalar
visibility of an actor on the vector and adds the rendered count. -/
theorem renderProp_eq (pass : vtkValuePass) (c : RenderCollaborators) (st : RenderLoopState)
    (p : vtkProp) :
    renderProp pass c st p =
      { Done := st.Done ++ [preparedProp pass p]
        scalarVisibilities := st.scalarVisibilities ++ cachedVisibilities [p]
        NumberOfRenderedProps :=
          st.NumberOfRenderedProps + c.RenderOpaqueGeometry (preparedProp pass p) } := by
  obtain ⟨actor, keys⟩ := p
  cases actor <;> cases keys <;> simp [renderProp, preparedProp, cachedVisibilities]

/-- The first loop leaves the prepared props and one cached value per actor. -/
theorem renderProps_eq (pass : vtkValuePass) (c : RenderCollaborators) (props : List vtkProp) :
    ∀ st : RenderLoopState,
      (props.foldl (renderProp pass c) st).Done = st.Done ++ props.map (preparedProp pass) ∧
      (props.foldl (renderProp pass c) st).scalarVisibilities =
        st.scalarVisibilities ++ cachedVisibilities props := by
  induction props with
  | nil => intro st; simp [cachedVisibilities]
  | cons p rest ih =>
    intro st
    obtain ⟨h1, h2⟩ := ih (renderProp pass c st p)
    simp only [List.foldl_cons]
    rw [h1, h2, renderProp_eq]
    simp [cachedVisibilities]

/-- The second loop over actors whose cached values sit at their own indices
gives every actor its value back and reads nothing outside the vector. -/
theorem restoreProps_actors (c : RenderCollaborators) (props : List vtkProp) :
    ∀ (before values after : List Int) (st : RestoreLoopState),
      (∀ p ∈ props, p.Actor.isSome = true) → values.length = props.length →
      scalarVisibilityOf
          (restoreProps c (before ++ values ++ after) before.length props st).Done =
        scalarVisibilityOf st.Done ++ values.map some ∧
      (restoreProps c (before ++ values ++ after) before.length props st).OutOfBounds =
        st.OutOfBounds := by
  induction props with
  | nil =>
    intro before values after st _ hlen
    have hv : values = [] := List.length_eq_zero.mp hlen
    subst hv
    simp [restoreProps]
  | cons p rest ih =>
    intro before values after st hact hlen
    cases values with
    | nil => simp at hlen
    | cons v vs =>
      obtain ⟨a, ha⟩ := Option.isSome_iff_exists.mp (hact p (List.mem_cons_self _ _))
      have hlt : before.length < (before ++ v :: vs ++ after).length := by simp
      have hget : (before ++ v :: vs ++ after).getD before.length (c.Stray before.length) = v := by
        have h0 : (before ++ (v :: vs ++ after))[before.length]? = some v := by
          rw [List.getElem?_append_right (le_refl _)]
          simp
        rw [List.getD_eq_getElem?_getD, List.append_assoc, h0]
        rfl
      have hstep : scalarVisibilityOf
            (restoreProp c (before ++ v :: vs ++ after) st before.length p).Done =
          scalarVisibilityOf st.Done ++ [some v] ∧
          (restoreProp c (before ++ v :: vs ++ after) st before.length p).OutOfBounds =
            st.OutOfBounds := by
        unfold restoreProp
        simp only [ha, hlt, if_true, hget]
        cases p.PropertyKeys <;> simp [scalarVisibilityOf]
      have hcache : before ++ v :: vs ++ after = (before ++ [v]) ++ vs ++ after := by simp
      have hidx : before.length + 1 = (before ++ [v]).length := by simp
      obtain ⟨h1, h2⟩ := ih (before ++ [v]) vs after
        (restoreProp c (before ++ v :: vs ++ after) st before.length p)
        (fun q hq => hact q (List.mem_cons_of_mem _ hq)) (by simpa using hlen)
      rw [← hcache] at h1 h2
      simp only [restoreProps]
      rw [hidx, h1, h2, hstep.1, hstep.2]
      simp

/-- The second loop over props that are not actors reads no cached value. -/
theorem restoreProps_others (c : RenderCollaborators) (cache : List Int) (props : List vtkProp) :
    ∀ (i : Nat) (st : RestoreLoopState), (∀ p ∈ props, p.Actor = none) →
      scalarVisibilityOf (restoreProps c cache i props st).Done =
        scalarVisibilityOf st.Done ++ props.map (fun _ => none) ∧
      (restoreProps c cache i props st).OutOfBounds = st.OutOfBounds := by
  induction props with
  | nil => intro i st _; simp [restoreProps]
  | cons p rest ih =>
    intro i st h
    have hp : p.Actor = none := h p (List.mem_cons_self _ _)
    have hstep : scalarVisibilityOf (restoreProp c cache st i p).Done =
          scalarVisibilityOf st.Done ++ [none] ∧
        (restoreProp c cache st i p).OutOfBounds = st.OutOfBounds := by
      unfold restoreProp
      simp only [hp]
      cases p.PropertyKeys <;> simp [scalarVisibilityOf, hp]
    obtain ⟨h1, h2⟩ := ih (i + 1) (restoreProp c cache st i p)
      (fun q hq => h q (List.mem_cons_of_mem _ hq))
    simp only [restoreProps]
    rw [h1, h2, hstep.1, hstep.2]
    simp

/-- The second loop over an array in two parts runs over the first part and
then, from the index that follows, over the second. -/
theorem restoreProps_append (c : RenderCollaborators) (cache : List Int)
    (first second : List vtkProp) :
    ∀ (i : Nat) (st : RestoreLoopState),
      restoreProps c cache i (first ++ second) st =
        restoreProps c cache (i + first.length) second (restoreProps c cache i first st) := by
  induction first with
  | nil => intro i st; simp [restoreProps]
  | cons p rest ih =>
    intro i st
    show restoreProps c cache (i + 1) (rest ++ second) (restoreProp c cache st i p) =
      restoreProps c cache (i + (rest.length + 1)) second
        (restoreProps c cache (i + 1) rest (restoreProp c cache st i p))
    rw [ih]
    congr 1
    omega

/-- Where the restore step of `RenderOpaqueGeometry` is right: when all the
actors of the prop array come before its other props, every actor's mapper
has after the call the scalar visibility it had before, and no read of the
vector is outside it. -/
theorem RenderOpaqueGeometry_restores_actors_first (c : RenderCollaborators)
    (self : vtkValuePass) (actors others : List vtkProp)
    (hactors : ∀ p ∈ actors, p.Actor.isSome = true) (hothers : ∀ p ∈ others, p.Actor = none) :
    scalarVisibilityOf (self.RenderOpaqueGeometry c { PropArray := actors ++ others }).PropArray =
      scalarVisibilityOf (actors ++ others) ∧
    (self.RenderOpaqueGeometry c { PropArray := actors ++ others }).OutOfBounds = [] := by
  have hcacheA : ∀ l : List vtkProp, (∀ p ∈ l, p.Actor.isSome = true) →
      (cachedVisibilities l).map some = scalarVisibilityOf l ∧
      (cachedVisibilities l).length = l.length := by
    intro l
    induction l with
    | nil => intro _; simp [cachedVisibilities, scalarVisibilityOf]
    | cons p rest ih =>
      intro h
      obtain ⟨a, ha⟩ := Option.isSome_iff_exists.mp (h p (List.mem_cons_self _ _))
      obtain ⟨h1, h2⟩ := ih (fun q hq => h q (List.mem_cons_of_mem _ hq))
      simp only [cachedVisibilities, scalarVisibilityOf] at h1 h2 ⊢
      simp [ha, h1, h2]
  have hcacheO : ∀ l : List vtkProp, (∀ p ∈ l, p.Actor = none) →
      cachedVisibilities l = [] ∧ scalarVisibilityOf l = l.map (fun _ => none) := by
    intro l
    induction l with
    | nil => intro _; simp [cachedVisibilities, scalarVisibilityOf]
    | cons p rest ih =>
      intro h
      have hp : p.Actor = none := h p (List.mem_cons_self _ _)
      obtain ⟨h1, h2⟩ := ih (fun q hq => h q (List.mem_cons_of_mem _ hq))
      simp only [cachedVisibilities, scalarVisibilityOf] at h1 h2 ⊢
      simp [hp, h1, h2]
  obtain ⟨hd, hsv⟩ := renderProps_eq self c (actors ++ others)
    { Done := [], scalarVisibilities := [], NumberOfRenderedProps := self.NumberOfRenderedProps }
  have hsv2 : cachedVisibilities (actors ++ others) = [] ++ cachedVisibilities actors ++ [] := by
    simp [cachedVisibilities, (hcacheO others hothers).1] at *
    intro p hp
    simp [hothers p hp]
  have hpa : ∀ p ∈ actors.map (preparedProp self), p.Actor.isSome = true := by
    intro p hp
    obtain ⟨q, hq, hqp⟩ := List.mem_map.mp hp
    subst hqp
    have := hactors q hq
    simp [preparedProp, this]
  have hpo : ∀ p ∈ others.map (preparedProp self), p.Actor = none := by
    intro p hp
    obtain ⟨q, hq, hqp⟩ := List.mem_map.mp hp
    subst hqp
    simp [preparedProp, hothers q hq]
  simp only [vtkValuePass.RenderOpaqueGeometry]
  rw [hd, hsv, List.nil_append, List.nil_append, List.map_append, hsv2, restoreProps_append]
  obtain ⟨ha1, ha2⟩ := restoreProps_actors c (actors.map (preparedProp self)) []
    (cachedVisibilities actors) [] { Done := [], OutOfBounds := [], NullKeys := [] } hpa
    (by simp [(hcacheA actors hactors).2])
  obtain ⟨ho1, ho2⟩ := restoreProps_others c ([] ++ cachedVisibilities actors ++ [])
    (others.map (preparedProp self)) (0 + (actors.map (preparedProp self)).length)
    (restoreProps c ([] ++ cachedVisibilities actors ++ []) 0 (actors.map (preparedProp self))
      { Done := [], OutOfBounds := [], NullKeys := [] }) hpo
  simp only [List.length_nil] at ha1 ha2
  rw [ho1, ho2, ha1, ha2, (hcacheA actors hactors).1]
  simp only [scalarVisibilityOf, List.map_nil, List.nil_append, List.map_map, List.map_append,
    and_true]
  congr 1
  apply List.map_congr_left
  intro q hq
  simp [hothers q hq]

/-- The actors-first case at a prop array of two actors and one other prop. -/
theorem RenderOpaqueGeometry_restores_two_actors_first (c : RenderCollaborators)
    (self : vtkValuePass) :
    scalarVisibilityOf
        (self.RenderOpaqueGeometry c
          { PropArray := [actorProp 0, actorProp 1] ++ [plainProp] }).PropArray =
      [some 0, some 1, none] ∧
    (self.RenderOpaqueGeometry c
      { PropArray := [actorProp 0, actorProp 1] ++ [plainProp] }).OutOfBounds = [] :=
  RenderOpaqueGeometry_restores_actors_first c self [actorProp 0, actorProp 1] [plainProp]
    (by decide) (by decide)

/-- A removed key is no longer held. -/
theorem Has_Remove_self (info : vtkInformation) (k : vtkInformationKey) :
    (info.Remove k).Has k = false := by
  simp [vtkInformation.Has, vtkInformation.Remove]

/-- Removing a key does not bring in another key. -/
theorem Has_Remove_of_not (info : vtkInformation) (k k2 : vtkInformationKey)
    (h : info.Has k = false) : (info.Remove k2).Has k = false := by
  simp only [vtkInformation.Has, vtkInformation.Remove, List.any_eq_false, List.mem_filter,
    decide_eq_true_eq] at h ⊢
  intro e he
  exact h e he.1

/-- After the seven `Remove` calls none of the seven keys is held. -/
theorem removeValueKeys_Has (keys : vtkInformation) (k : vtkInformationKey)
    (hk : k ∈ valueKeys) : (removeValueKeys keys).Has k = false := by
  simp only [valueKeys, List.mem_cons, List.mem_singleton, List.not_mem_nil, or_false] at hk
  unfold removeValueKeys
  rcases hk with h | h | h | h | h | h | h <;> subst h <;>
    first
    | exact Has_Remove_self _ _
    | (apply Has_Remove_of_not; exact Has_Remove_self _ _)
    | (apply Has_Remove_of_not; apply Has_Remove_of_not; exact Has_Remove_self _ _)
    | (apply Has_Remove_of_not; apply Has_Remove_of_not; apply Has_Remove_of_not;
       exact Has_Remove_self _ _)
    | (apply Has_Remove_of_not; apply Has_Remove_of_not; apply Has_Remove_of_not;
       apply Has_Remove_of_not; exact Has_Remove_self _ _)
    | (apply Has_Remove_of_not; apply Has_Remove_of_not; apply Has_Remove_of_not;
       apply Has_Remove_of_not; apply Has_Remove_of_not; exact Has_Remove_self _ _)
    | (apply Has_Remove_of_not; apply Has_Remove_of_not; apply Has_Remove_of_not;
       apply Has_Remove_of_not; apply Has_Remove_of_not; apply Has_Remove_of_not;
       exact Has_Remove_self _ _)

/-- The first loop leaves every prop it has visited with property keys. -/
theorem renderProps_keys (pass : vtkValuePass) (c : RenderCollaborators) (props : List vtkProp) :
    ∀ st : RenderLoopState, (∀ p ∈ st.Done, p.PropertyKeys.isSome = true) →
      (∀ p ∈ (props.foldl (renderProp pass c) st).Done, p.PropertyKeys.isSome = true) ∧
      (props.foldl (renderProp pass c) st).Done.length = st.Done.length + props.length := by
  induction props with
  | nil => intro st h; exact ⟨h, by simp⟩
  | cons q rest ih =>
    intro st h
    have hstep : ∀ p ∈ (renderProp pass c st q).Done, p.PropertyKeys.isSome = true := by
      intro p hp
      simp only [renderProp, List.mem_append, List.mem_singleton] at hp
      rcases hp with hp | hp
      · exact h p hp
      · subst hp; rfl
    have hlen : (renderProp pass c st q).Done.length = st.Done.length + 1 := by
      simp [renderProp]
    obtain ⟨h1, h2⟩ := ih (renderProp pass c st q) hstep
    refine ⟨h1, ?_⟩
    simp only [List.foldl_cons, List.length_cons]
    rw [h2, hlen]
    omega

/-- The second loop, run over props that all have property keys, never meets
null keys and leaves every prop it visits without the seven keys. -/
theorem restoreProps_keys (c : RenderCollaborators) (cache : List Int) (props : List vtkProp) :
    ∀ (i : Nat) (st : RestoreLoopState), (∀ p ∈ props, p.PropertyKeys.isSome = true) →
      (restoreProps c cache i props st).NullKeys = st.NullKeys ∧
      (restoreProps c cache i props st).Done.length = st.Done.length + props.length ∧
      (∀ p ∈ (restoreProps c cache i props st).Done, p ∈ st.Done ∨ KeysRemoved p) := by
  induction props with
  | nil => intro i st _; exact ⟨rfl, by simp [restoreProps], fun p hp => Or.inl hp⟩
  | cons q rest ih =>
    intro i st h
    have hq : q.PropertyKeys.isSome = true := h q (List.mem_cons_self _ _)
    obtain ⟨keys, hkeys⟩ := Option.isSome_iff_exists.mp hq
    obtain ⟨h1, h2, h3⟩ := ih (i + 1) (restoreProp c cache st i q)
      (fun p hp => h p (List.mem_cons_of_mem _ hp))
    have hnull : (restoreProp c cache st i q).NullKeys = st.NullKeys := by
      unfold restoreProp
      cases hA : q.Actor with
      | none => simp only [hkeys]
      | some a => simp only [hkeys]; split <;> rfl
    have hlen : (restoreProp c cache st i q).Done.length = st.Done.length + 1 := by
      unfold restoreProp
      cases hA : q.Actor <;> simp only [hkeys] <;> (try split) <;> simp
    have hdone : ∀ p ∈ (restoreProp c cache st i q).Done, p ∈ st.Done ∨ KeysRemoved p := by
      intro p hp
      unfold restoreProp at hp
      cases hA : q.Actor <;> simp only [hA, hkeys] at hp
      · simp only [List.mem_append, List.mem_singleton] at hp
        rcases hp with hp | hp
        · exact Or.inl hp
        · exact Or.inr ⟨removeValueKeys keys, by rw [hp], fun k hk => removeValueKeys_Has _ k hk⟩
      · split at hp <;>
        · simp only [List.mem_append, List.mem_singleton] at hp
          rcases hp with hp | hp
          · exact Or.inl hp
          · exact Or.inr ⟨removeValueKeys keys, by rw [hp], fun k hk => removeValueKeys_Has _ k hk⟩
    refine ⟨?_, ?_, ?_⟩
    · simp only [restoreProps]; rw [h1, hnull]
    · simp only [restoreProps, List.length_cons]; rw [h2, hlen]; omega
    · intro p hp
      simp only [restoreProps] at hp
      rcases h3 p hp with hp2 | hp2
      · exact hdone p hp2
      · exact Or.inr hp2

/-- C4: for every prop array, `RenderOpaqueGeometry` leaves as many props as it
was given, each with property keys that hold none of the seven keys of the
pass, and the removal loop never finds null keys, whatever keys (or none) the
props had before the call. -/
theorem RenderOpaqueGeometry_removes_keys (c : RenderCollaborators) (self : vtkValuePass)
    (s : vtkRenderState) :
    (self.RenderOpaqueGeometry c s).NullKeys = [] ∧
    (self.RenderOpaqueGeometry c s).PropArray.length = s.PropArray.length ∧
    (∀ p ∈ (self.RenderOpaqueGeometry c s).PropArray, KeysRemoved p) := by
  obtain ⟨hk, hl⟩ := renderProps_keys self c s.PropArray
    { Done := [], scalarVisibilities := [], NumberOfRenderedProps := self.NumberOfRenderedProps }
    (by intro p hp; cases hp)
  obtain ⟨h1, h2, h3⟩ := restoreProps_keys c
    (s.PropArray.foldl (renderProp self c)
      { Done := [], scalarVisibilities := [],
        NumberOfRenderedProps := self.NumberOfRenderedProps }).scalarVisibilities
    _ 0 { Done := [], OutOfBounds := [], NullKeys := [] } hk
  refine ⟨h1, ?_, ?_⟩
  · simp only [vtkValuePass.RenderOpaqueGeometry]
    rw [h2, hl]
    simp
  · intro p hp
    rcases h3 p hp with hp2 | hp2
    · cases hp2
    · exact hp2

/-! ## Theorems: vtkGenericClip::Execute -/

/-- C1: `Execute` returns with the filter (both outputs, the locator and the
three attribute containers included) unchanged and without a `Clip` call when
the input is null, when the input has fewer than 1 point, and when no clip
function is set while `GenerateClipScalars` is on; in every other case it runs
the allocation and the attribute preparation and enters the cell loop over the
cells of the input. -/
theorem Execute_early_returns (c : ClipCollaborators) (self : vtkGenericClip) :
    (self.Input = none →
      (self.Execute c).self = self ∧ (self.Execute c).ClipCalls = []) ∧
    (∀ input, self.Input = some input → input.NumberOfPoints < 1 →
      (self.Execute c).self = self ∧ (self.Execute c).ClipCalls = []) ∧
    (∀ input, self.Input = some input → self.ClipFunction = none →
      self.GenerateClipScalars ≠ 0 →
      (self.Execute c).self = self ∧ (self.Execute c).ClipCalls = []) ∧
    (∀ input, self.Input = some input → 1 ≤ input.NumberOfPoints →
      ¬ (self.ClipFunction = none ∧ self.GenerateClipScalars ≠ 0) →
      self.Execute c = afterCellLoop c self
        (clipCells c self input (input.GetNumberOfCells / 20 + 1) 0 input.Cells
          (beforeCellLoop c self input))) := by
  refine ⟨?_, ?_, ?_, ?_⟩
  · intro h
    simp [vtkGenericClip.Execute, h]
  · intro input h hpts
    simp [vtkGenericClip.Execute, h, hpts]
  · intro input h hcf hgen
    by_cases hpts : input.NumberOfPoints < 1
    · simp [vtkGenericClip.Execute, h, hpts]
    · simp [vtkGenericClip.Execute, h, hpts, hcf, hgen]
  · intro input h hpts hguard
    have hpts2 : ¬ input.NumberOfPoints < 1 := by omega
    have hguard2 : ¬ (self.ClipFunction.isNone = true ∧ self.GenerateClipScalars ≠ 0) := by
      intro hg
      exact hguard ⟨Option.isNone_iff_eq_none.mp hg.1, hg.2⟩
    simp only [vtkGenericClip.Execute, h, hpts2, hguard2, if_false, ExecuteClip]

/-- Every `Clip` call the body of the cell loop adds carries the arguments
`clipArguments self input`, whichever connectivity it fills. -/
theorem clipCell_ClipCalls (c : ClipCollaborators) (self : vtkGenericClip)
    (input : vtkGenericDataSet) (updateTime cellId : Int) (cell : vtkGenericAdaptorCell)
    (st : ExecuteState) :
    (clipCell c self input updateTime cellId cell st).ClipCalls =
      st.ClipCalls ++
        (if self.GenerateClippedOutput ≠ 0 then
          [ClipCall.mk cell (clipArguments self input) 0,
           ClipCall.mk cell (clipArguments self input) 1]
         else [ClipCall.mk cell (clipArguments self input) 0]) := by
  unfold clipCell
  by_cases hg : self.GenerateClippedOutput = 0 <;>
    by_cases hu : cellId % updateTime = 0 <;> simp [hg, hu]

/-- All `Clip` calls of the cell loop carry the same arguments, and with them
the same inside-out sense `InsideOut` of the filter. -/
theorem clipCells_ClipCalls (c : ClipCollaborators) (self : vtkGenericClip)
    (input : vtkGenericDataSet) (updateTime : Int) (cells : List vtkGenericAdaptorCell) :
    ∀ (cellId : Int) (st : ExecuteState),
      (∀ call ∈ st.ClipCalls, call.Arguments = clipArguments self input) →
      ∀ call ∈ (clipCells c self input updateTime cellId cells st).ClipCalls,
        call.Arguments = clipArguments self input := by
  induction cells with
  | nil => intro cellId st h; simpa [clipCells] using h
  | cons cell rest ih =>
    intro cellId st h
    unfold clipCells
    by_cases ha : st.abort = 0
    · simp only [ha, ne_eq, not_true_eq_false, if_false]
      apply ih
      intro call hcall
      rw [clipCell_ClipCalls] at hcall
      rcases List.mem_append.mp hcall with hc | hc
      · exact h call hc
      · by_cases hg : self.GenerateClippedOutput = 0
        · simp only [hg, ne_eq, not_true_eq_false, if_false, List.mem_singleton] at hc
          rw [hc]
        · simp only [hg, ne_eq, not_false_eq_true, if_true, List.mem_cons, List.mem_singleton,
            List.not_mem_nil, or_false] at hc
          rcases hc with hc | hc <;> rw [hc]
    · simpa [ha] using h

/-- Whatever the collaborators and the filter, every `Clip` call of `Execute`
is made with the inside-out sense `InsideOut` of the filter: a call that fills
`conn[1]` never differs in it from one that fills `conn[0]`. -/
theorem Execute_ClipCalls_InsideOut (c : ClipCollaborators) (self : vtkGenericClip) :
    ∀ call ∈ (self.Execute c).ClipCalls, call.Arguments.InsideOut = self.InsideOut := by
  intro call hcall
  unfold vtkGenericClip.Execute at hcall
  cases hin : self.Input with
  | none => simp [hin] at hcall
  | some input =>
    simp only [hin] at hcall
    split at hcall
    · simp at hcall
    · split at hcall
      · simp at hcall
      · simp only [ExecuteClip, afterCellLoop] at hcall
        have h := clipCells_ClipCalls c self input (input.GetNumberOfCells / 20 + 1) input.Cells 0
          (beforeCellLoop c self input) (by simp [beforeCellLoop]) call hcall
        rw [h]
        rfl

/-- C2 fails on the code. For a filter with `InsideOut` off and
`GenerateClippedOutput` on, run on a data set with one cell, `Execute` issues two
`Clip` calls for the cell, the first filling `conn[0]` and the second `conn[1]`,
and both carry the inside-out sense 0 of the filter; the negation of
`InsideOut`, 1, is passed to neither. -/
theorem Execute_clipped_output_same_sense (c : ClipCollaborators) :
    clipWithClippedOutput.InsideOut = 0 ∧
    logicalNot clipWithClippedOutput.InsideOut = 1 ∧
    (clipWithClippedOutput.Execute c).ClipCalls.map
        (fun call => (call.Cell.Id, call.Connectivity, call.Arguments.InsideOut)) =
      [(0, 0, 0), (0, 1, 0)] ∧
    (clipWithClippedOutput.Execute c).ClipCalls.map (fun call => call.Arguments) =
      [clipArguments clipWithClippedOutput oneCellDataSet,
       clipArguments clipWithClippedOutput oneCellDataSet] := by
  have hcalls : (clipWithClippedOutput.Execute c).ClipCalls =
      [ClipCall.mk { Id := 0, Dimension := 3 }
          (clipArguments clipWithClippedOutput oneCellDataSet) 0,
       ClipCall.mk { Id := 0, Dimension := 3 }
          (clipArguments clipWithClippedOutput oneCellDataSet) 1] := by
    have hE : clipWithClippedOutput.Execute c = ExecuteClip c clipWithClippedOutput
        oneCellDataSet := by
      simp [vtkGenericClip.Execute, clipWithClippedOutput, vtkGenericClip.New, oneCellDataSet]
    rw [hE]
    simp only [ExecuteClip, afterCellLoop, oneCellDataSet, clipCells]
    have hab : (beforeCellLoop c clipWithClippedOutput
        { NumberOfPoints := 1, Cells := [{ Id := 0, Dimension := 3 }], Attributes := [],
          Bounds := [0, 1, 0, 1, 0, 1], Tessellator := 0 }).abort = 0 := rfl
    simp only [hab, ne_eq, not_true_eq_false, if_false]
    rw [clipCell_ClipCalls]
    simp [beforeCellLoop, clipWithClippedOutput, vtkGenericClip.New]
  refine ⟨rfl, rfl, ?_, ?_⟩
  · rw [hcalls]
    simp [clipArguments, clipWithClippedOutput, vtkGenericClip.New]
  · rw [hcalls]
    simp

/-- The body of the cell loop keeps a reading of the three containers that
`Clip` keeps. -/
theorem clipCell_perContainer {α : Type} (f : vtkDataSetAttributes → α)
    (c : ClipCollaborators) (self : vtkGenericClip)
    (input : vtkGenericDataSet) (updateTime cellId : Int) (cell : vtkGenericAdaptorCell)
    (st : ExecuteState)
    (hClip : ∀ cell args t, (c.Clip cell args t).perContainer f = t.perContainer f) :
    (clipCell c self input updateTime cellId cell st).perContainer f = st.perContainer f := by
  unfold clipCell
  by_cases hg : self.GenerateClippedOutput = 0 <;>
    by_cases hu : cellId % updateTime = 0 <;>
    simp only [hg, hu, ne_eq, not_true_eq_false, not_false_eq_true, if_true, if_false] <;>
    simp only [ExecuteState.perContainer] <;>
    first
    | exact hClip _ _ _
    | exact (hClip _ _ _).trans (hClip _ _ _)

/-- The cell loop keeps a reading of the three containers that `Clip` keeps. -/
theorem clipCells_perContainer {α : Type} (f : vtkDataSetAttributes → α)
    (c : ClipCollaborators) (self : vtkGenericClip)
    (input : vtkGenericDataSet) (updateTime : Int)
    (hClip : ∀ cell args t, (c.Clip cell args t).perContainer f = t.perContainer f)
    (cells : List vtkGenericAdaptorCell) :
    ∀ (cellId : Int) (st : ExecuteState),
      (clipCells c self input updateTime cellId cells st).perContainer f =
        st.perContainer f := by
  induction cells with
  | nil => intro cellId st; rfl
  | cons cell rest ih =>
    intro cellId st
    unfold clipCells
    by_cases ha : st.abort = 0
    · simp only [ha, ne_eq, not_true_eq_false, if_false]
      rw [ih, clipCell_perContainer f c self input updateTime cellId cell st hClip]
    · simp [ha]

/-- The attribute preparation reads and writes the three containers only. -/
theorem prepareAttributes_congr (c : ClipCollaborators)
    (attributes : List vtkGenericAttribute) :
    ∀ a b : vtkGenericClip, a.internalPD = b.internalPD → a.secondaryPD = b.secondaryPD →
      a.secondaryCD = b.secondaryCD →
      (prepareAttributes c a attributes).internalPD =
        (prepareAttributes c b attributes).internalPD ∧
      (prepareAttributes c a attributes).secondaryPD =
        (prepareAttributes c b attributes).secondaryPD ∧
      (prepareAttributes c a attributes).secondaryCD =
        (prepareAttributes c b attributes).secondaryCD := by
  induction attributes with
  | nil => intro a b h1 h2 h3; exact ⟨h1, h2, h3⟩
  | cons attr rest ih =>
    intro a b h1 h2 h3
    simp only [prepareAttributes, List.foldl_cons]
    have e1 : (prepareAttribute c a attr).internalPD = (prepareAttribute c b attr).internalPD := by
      unfold prepareAttribute; split <;> simp [h1]
    have e2 : (prepareAttribute c a attr).secondaryPD =
        (prepareAttribute c b attr).secondaryPD := by
      unfold prepareAttribute; split <;> simp [h2]
    have e3 : (prepareAttribute c a attr).secondaryCD =
        (prepareAttribute c b attr).secondaryCD := by
      unfold prepareAttribute; split <;> simp [h3]
    exact ih _ _ e1 e2 e3

/-- After the three early returns, a reading of the three containers that
`Clip` keeps is, when `Execute` returns, what it was right after the attribute
preparation: nothing the preparation added is taken out again. -/
theorem ExecuteClip_perContainer {α : Type} (f : vtkDataSetAttributes → α)
    (c : ClipCollaborators) (self : vtkGenericClip) (input : vtkGenericDataSet)
    (hClip : ∀ cell args t, (c.Clip cell args t).perContainer f = t.perContainer f) :
    (ExecuteClip c self input).self.perContainer f =
      (prepareAttributes c self input.Attributes).perContainer f := by
  have h := clipCells_perContainer f c self input (input.GetNumberOfCells / 20 + 1) hClip
    input.Cells 0 (beforeCellLoop c self input)
  have hb : (beforeCellLoop c self input).perContainer f =
      (prepareAttributes c (self.CreateDefaultLocator c) input.Attributes).perContainer f := rfl
  have hcdl : (prepareAttributes c (self.CreateDefaultLocator c) input.Attributes).perContainer f =
      (prepareAttributes c self input.Attributes).perContainer f := by
    obtain ⟨e1, e2, e3⟩ := prepareAttributes_congr c input.Attributes
      (self.CreateDefaultLocator c) self
      (by unfold vtkGenericClip.CreateDefaultLocator; cases self.Locator <;> rfl)
      (by unfold vtkGenericClip.CreateDefaultLocator; cases self.Locator <;> rfl)
      (by unfold vtkGenericClip.CreateDefaultLocator; cases self.Locator <;> rfl)
    simp only [vtkGenericClip.perContainer, e1, e2, e3]
  show (clipCells c self input (input.GetNumberOfCells / 20 + 1) 0 input.Cells
    (beforeCellLoop c self input)).perContainer f = _
  rw [h, hb, hcdl]

/-- `Execute` either returns the filter as it was, or it is past the three
early returns and leaves input, clip function and flags as they were. -/
theorem Execute_cases (c : ClipCollaborators) (self : vtkGenericClip) :
    ((self.Execute c).self = self ∧
      (self.Input = none ∨ ∃ input, self.Input = some input ∧
        (input.NumberOfPoints < 1 ∨
          (self.ClipFunction = none ∧ self.GenerateClipScalars ≠ 0)))) ∨
    (∃ input, self.Input = some input ∧ ¬ input.NumberOfPoints < 1 ∧
      ¬ (self.ClipFunction = none ∧ self.GenerateClipScalars ≠ 0) ∧
      self.Execute c = ExecuteClip c self input ∧
      (self.Execute c).self.Input = self.Input ∧
      (self.Execute c).self.ClipFunction = self.ClipFunction ∧
      (self.Execute c).self.GenerateClipScalars = self.GenerateClipScalars) := by
  cases hin : self.Input with
  | none => left; simp [vtkGenericClip.Execute, hin]
  | some input =>
    by_cases hpts : input.NumberOfPoints < 1
    · left; simp [vtkGenericClip.Execute, hin, hpts]
    · by_cases hg : self.ClipFunction = none ∧ self.GenerateClipScalars ≠ 0
      · left; simp [vtkGenericClip.Execute, hin, hpts, hg]
      · right
        have hg2 : ¬ (self.ClipFunction.isNone = true ∧ self.GenerateClipScalars ≠ 0) := by
          intro h
          exact hg ⟨Option.isNone_iff_eq_none.mp h.1, h.2⟩
        have hE : self.Execute c = ExecuteClip c self input := by
          simp only [vtkGenericClip.Execute, hin, hpts, hg2, if_false]
        refine ⟨input, rfl, hpts, hg, hE, ?_, ?_, ?_⟩
        · rw [hE]; exact hin
        · rw [hE]; rfl
        · rw [hE]; rfl

/-- Adding the array of an attribute never lowers the number of arrays, when
`AddArray` never lowers it and `SetActiveAttribute` keeps it. -/
theorem addAttributeArray_count (c : ClipCollaborators)
    (hAdd : ∀ d a, d.GetNumberOfArrays ≤ (c.AddArray d a).GetNumberOfArrays)
    (hSet : ∀ d i t, (c.SetActiveAttribute d i t).GetNumberOfArrays = d.GetNumberOfArrays)
    (d : vtkDataSetAttributes) (attr : vtkGenericAttribute) :
    d.GetNumberOfArrays ≤ (addAttributeArray c d attr).GetNumberOfArrays := by
  simp only [addAttributeArray]
  split
  · rw [hSet]; exact hAdd _ _
  · exact hAdd _ _

/-- The attribute preparation never lowers the numbers of arrays of the three
containers, under the same conditions. -/
theorem prepareAttributes_counts (c : ClipCollaborators)
    (hAdd : ∀ d a, d.GetNumberOfArrays ≤ (c.AddArray d a).GetNumberOfArrays)
    (hSet : ∀ d i t, (c.SetActiveAttribute d i t).GetNumberOfArrays = d.GetNumberOfArrays)
    (attributes : List vtkGenericAttribute) :
    ∀ self : vtkGenericClip,
      self.internalPD.GetNumberOfArrays ≤
        (prepareAttributes c self attributes).internalPD.GetNumberOfArrays ∧
      self.secondaryPD.GetNumberOfArrays ≤
        (prepareAttributes c self attributes).secondaryPD.GetNumberOfArrays ∧
      self.secondaryCD.GetNumberOfArrays ≤
        (prepareAttributes c self attributes).secondaryCD.GetNumberOfArrays := by
  induction attributes with
  | nil => intro self; exact ⟨le_refl _, le_refl _, le_refl _⟩
  | cons attr rest ih =>
    intro self
    obtain ⟨h1, h2, h3⟩ := ih (prepareAttribute c self attr)
    have hstep : self.internalPD.GetNumberOfArrays ≤
          (prepareAttribute c self attr).internalPD.GetNumberOfArrays ∧
        self.secondaryPD.GetNumberOfArrays ≤
          (prepareAttribute c self attr).secondaryPD.GetNumberOfArrays ∧
        self.secondaryCD.GetNumberOfArrays ≤
          (prepareAttribute c self attr).secondaryCD.GetNumberOfArrays := by
      unfold prepareAttribute
      split
      · exact ⟨addAttributeArray_count c hAdd hSet _ _, addAttributeArray_count c hAdd hSet _ _,
          le_refl _⟩
      · exact ⟨le_refl _, le_refl _, addAttributeArray_count c hAdd hSet _ _⟩
    simp only [prepareAttributes, List.foldl_cons] at h1 h2 h3 ⊢
    exact ⟨le_trans hstep.1 h1, le_trans hstep.2.1 h2, le_trans hstep.2.2 h3⟩

/-- The number of arrays of a container is the number of its names. -/
theorem arrayCounts_of_arrayNames (a b : vtkGenericClip) (h : a.arrayNames = b.arrayNames) :
    a.arrayCounts = b.arrayCounts := by
  have hlen : ∀ d : vtkDataSetAttributes, d.GetNumberOfArrays = (d.names.length : Int) := by
    intro d
    simp [vtkDataSetAttributes.GetNumberOfArrays, vtkDataSetAttributes.names]
  simp only [vtkGenericClip.arrayNames, vtkGenericClip.perContainer, Prod.mk.injEq] at h
  simp only [vtkGenericClip.arrayCounts, vtkGenericClip.perContainer, hlen, h.1, h.2.1, h.2.2]

/-- With a replacing `AddArray`, adding the array of a named attribute to a
container that holds its name leaves the names as they are. -/
theorem addAttributeArray_names_same (c : ClipCollaborators) (hR : ReplacesByName c)
    (d : vtkDataSetAttributes) (attr : vtkGenericAttribute) (hn : attr.Name ≠ none)
    (hm : attr.Name ∈ d.names) : (addAttributeArray c d attr).names = d.names := by
  obtain ⟨h1, _, _, h4, _⟩ := hR
  simp only [addAttributeArray]
  split
  · rw [h4]; exact h1 d (attributeArray attr) hn hm
  · exact h1 d (attributeArray attr) hn hm

/-- With a replacing `AddArray`, adding the array of an attribute keeps the
names held and makes the name of the attribute one of them. -/
theorem addAttributeArray_names_mem (c : ClipCollaborators) (hR : ReplacesByName c)
    (d : vtkDataSetAttributes) (attr : vtkGenericAttribute) :
    attr.Name ∈ (addAttributeArray c d attr).names ∧
    ∀ n ∈ d.names, n ∈ (addAttributeArray c d attr).names := by
  obtain ⟨_, h2, h3, h4, _⟩ := hR
  simp only [addAttributeArray]
  split
  · rw [h4]; exact ⟨h2 d (attributeArray attr), fun n hn => h3 d _ n hn⟩
  · exact ⟨h2 d (attributeArray attr), fun n hn => h3 d _ n hn⟩

/-- Preparing a named attribute whose arrays are held leaves the names of the
three containers as they are. -/
theorem prepareAttribute_names_same (c : ClipCollaborators) (hR : ReplacesByName c)
    (self : vtkGenericClip) (attr : vtkGenericAttribute) (hn : attr.Name ≠ none)
    (hheld : Held self.arrayNames attr) :
    (prepareAttribute c self attr).arrayNames = self.arrayNames := by
  unfold Held at hheld
  unfold prepareAttribute
  by_cases hc : attr.Centering = Centering.vtkPointCentered
  · simp only [hc, if_true] at hheld ⊢
    simp only [vtkGenericClip.arrayNames, vtkGenericClip.perContainer] at hheld ⊢
    rw [addAttributeArray_names_same c hR _ _ hn hheld.1,
      addAttributeArray_names_same c hR _ _ hn hheld.2]
  · simp only [hc, if_false] at hheld ⊢
    simp only [vtkGenericClip.arrayNames, vtkGenericClip.perContainer] at hheld ⊢
    rw [addAttributeArray_names_same c hR _ _ hn hheld]

/-- Preparing attributes that are all named and held leaves the names of the
three containers as they are. -/
theorem prepareAttributes_names_same (c : ClipCollaborators) (hR : ReplacesByName c)
    (attributes : List vtkGenericAttribute) :
    ∀ self : vtkGenericClip,
      (∀ a ∈ attributes, a.Name ≠ none ∧ Held self.arrayNames a) →
      (prepareAttributes c self attributes).arrayNames = self.arrayNames := by
  induction attributes with
  | nil => intro self _; rfl
  | cons attr rest ih =>
    intro self h
    obtain ⟨hn, hheld⟩ := h attr (List.mem_cons_self _ _)
    have hstep := prepareAttribute_names_same c hR self attr hn hheld
    simp only [prepareAttributes, List.foldl_cons]
    have hrest := ih (prepareAttribute c self attr) (by
      intro a ha
      rw [hstep]
      exact h a (List.mem_cons_of_mem _ ha))
    simp only [prepareAttributes] at hrest
    rw [hrest, hstep]

/-- Preparing an attribute keeps every attribute held that was held, and the
attribute itself is held afterwards. -/
theorem prepareAttribute_held (c : ClipCollaborators) (hR : ReplacesByName c)
    (self : vtkGenericClip) (attr : vtkGenericAttribute) :
    Held (prepareAttribute c self attr).arrayNames attr ∧
    ∀ x, Held self.arrayNames x → Held (prepareAttribute c self attr).arrayNames x := by
  unfold prepareAttribute
  by_cases hc : attr.Centering = Centering.vtkPointCentered
  · simp only [hc, if_true]
    constructor
    · simp only [Held, hc, if_true, vtkGenericClip.arrayNames, vtkGenericClip.perContainer]
      exact ⟨(addAttributeArray_names_mem c hR _ _).1, (addAttributeArray_names_mem c hR _ _).1⟩
    · intro x hx
      simp only [Held, vtkGenericClip.arrayNames, vtkGenericClip.perContainer] at hx ⊢
      by_cases hxc : x.Centering = Centering.vtkPointCentered
      · simp only [hxc, if_true] at hx ⊢
        exact ⟨(addAttributeArray_names_mem c hR _ _).2 _ hx.1,
          (addAttributeArray_names_mem c hR _ _).2 _ hx.2⟩
      · simp only [hxc, if_false] at hx ⊢
        exact hx
  · simp only [hc, if_false]
    constructor
    · simp only [Held, hc, if_false, vtkGenericClip.arrayNames, vtkGenericClip.perContainer]
      exact (addAttributeArray_names_mem c hR _ _).1
    · intro x hx
      simp only [Held, vtkGenericClip.arrayNames, vtkGenericClip.perContainer] at hx ⊢
      by_cases hxc : x.Centering = Centering.vtkPointCentered
      · simp only [hxc, if_true] at hx ⊢
        exact hx
      · simp only [hxc, if_false] at hx ⊢
        exact (addAttributeArray_names_mem c hR _ _).2 _ hx

/-- After the attribute preparation every attribute of the collection is
held. -/
theorem prepareAttributes_held (c : ClipCollaborators) (hR : ReplacesByName c)
    (attributes : List vtkGenericAttribute) :
    ∀ self : vtkGenericClip,
      (∀ x, Held self.arrayNames x → Held (prepareAttributes c self attributes).arrayNames x) ∧
      (∀ a ∈ attributes, Held (prepareAttributes c self attributes).arrayNames a) := by
  induction attributes with
  | nil => intro self; exact ⟨fun _ hx => hx, fun a ha => by cases ha⟩
  | cons attr rest ih =>
    intro self
    obtain ⟨hself, hmono⟩ := prepareAttribute_held c hR self attr
    obtain ⟨ihmono, ihall⟩ := ih (prepareAttribute c self attr)
    simp only [prepareAttributes, List.foldl_cons] at ihmono ihall ⊢
    refine ⟨fun x hx => ihmono x (hmono x hx), ?_⟩
    intro a ha
    rcases List.mem_cons.mp ha with h | h
    · rw [h]; exact ihmono attr hself
    · exact ihall a h

/-- With a replacing `AddArray`, a second `Execute` on the same input, whose
attributes are all named, leaves the names of the arrays in the three
containers as the first one left them. -/
theorem Execute_second_run_names (c : ClipCollaborators) (hR : ReplacesByName c)
    (self : vtkGenericClip)
    (hnamed : ∀ input, self.Input = some input → ∀ a ∈ input.Attributes, a.Name ≠ none) :
    ((self.Execute c).self.Execute c).self.arrayNames = (self.Execute c).self.arrayNames := by
  rcases Execute_cases c self with ⟨hsame, _⟩ | ⟨input, hin, _, _, hE, hin1, _, _⟩
  · rw [hsame, hsame]
  · have hnames1 : (self.Execute c).self.arrayNames =
        (prepareAttributes c self input.Attributes).arrayNames := by
      rw [hE]
      exact ExecuteClip_perContainer vtkDataSetAttributes.names c self input hR.2.2.2.2
    rcases Execute_cases c (self.Execute c).self with ⟨hsame, _⟩ | ⟨input2, hin2, _, _, hE2, _⟩
    · rw [hsame]
    · have hi : input2 = input := by
        rw [hin1, hin] at hin2
        exact (Option.some.inj hin2).symm
      subst hi
      have hnames2 : ((self.Execute c).self.Execute c).self.arrayNames =
          (prepareAttributes c (self.Execute c).self input2.Attributes).arrayNames := by
        rw [hE2]
        exact ExecuteClip_perContainer vtkDataSetAttributes.names c _ input2 hR.2.2.2.2
      rw [hnames2]
      apply prepareAttributes_names_same c hR
      intro a ha
      refine ⟨hnamed input2 hin a ha, ?_⟩
      rw [hnames1]
      exact (prepareAttributes_held c hR input2.Attributes self).2 a ha

/-- The collaborators of the concrete runs keep what the containers hold. -/
theorem sampleCollaborators_keepsArrays : KeepsArrays sampleCollaborators := by
  refine ⟨?_, ?_, ?_⟩
  · intro d a
    simp only [sampleCollaborators, vtkDataSetAttributes.GetNumberOfArrays]
    split <;> simp
  · intro d i t; rfl
  · intro cell args t; rfl

/-- The collaborators of the concrete runs replace an array of the same
name. -/
theorem sampleCollaborators_replacesByName : ReplacesByName sampleCollaborators := by
  have hmap : ∀ (l : List vtkDataArray) (a : vtkDataArray),
      (l.map (fun b => if b.Name = a.Name then a else b)).map (fun b => b.Name) =
        l.map (fun b => b.Name) := by
    intro l a
    rw [List.map_map]
    apply List.map_congr_left
    intro b _
    simp only [Function.comp]
    split
    · rename_i h; exact h.symm
    · rfl
  refine ⟨?_, ?_, ?_, ?_, ?_⟩
  · intro d a hn hm
    simp only [sampleCollaborators, vtkDataSetAttributes.names] at hm ⊢
    have hany : d.Arrays.any (fun b => decide (b.Name = a.Name)) = true := by
      obtain ⟨b, hb, hbn⟩ := List.mem_map.mp hm
      exact List.any_eq_true.mpr ⟨b, hb, by simp [hbn]⟩
    have hs : a.Name.isSome = true := Option.isSome_iff_ne_none.mpr hn
    simp only [hs, hany, and_self, if_true]
    exact hmap _ _
  · intro d a
    simp only [sampleCollaborators, vtkDataSetAttributes.names]
    split
    · rename_i h
      obtain ⟨b, hb, hbn⟩ := List.any_eq_true.mp h.2
      rw [hmap]
      exact List.mem_map.mpr ⟨b, hb, by simpa using hbn⟩
    · simp
  · intro d a n hn
    simp only [sampleCollaborators, vtkDataSetAttributes.names] at hn ⊢
    split
    · rw [hmap]; exact hn
    · simp only [List.map_append, List.mem_append]
      exact Or.inl hn
  · intro d i t; rfl
  · intro cell args t; rfl

/-- C8 fails on the code. A freshly constructed filter holds no array in
`internalPD` and `secondaryPD`; after `Execute` on a data set with one
point-centered attribute (and no cell) each of them holds one. -/
theorem Execute_keeps_added_arrays :
    freshClip.arrayCounts = (0, 0, 0) ∧
    (freshClip.Execute sampleCollaborators).self.arrayCounts = (1, 1, 0) ∧
    (freshClip.Execute sampleCollaborators).self.internalPD.GetNumberOfArrays ≠
      freshClip.internalPD.GetNumberOfArrays := by
  refine ⟨rfl, ?_, ?_⟩
  · decide
  · decide


/-- C8 (amended): `Execute` keeps the arrays it adds to `internalPD`,
`secondaryPD` and `secondaryCD`. With collaborators that keep what the
containers hold, the numbers of arrays after `Execute` are never below the
numbers before it, and they equal them when `Execute` adds no array (early
return, or an input without attributes). When `AddArray` replaces an array of
the same name, a second `Execute` on the same input with named attributes
leaves the numbers as the first one left them. -/
theorem Execute_arrayCounts (c : ClipCollaborators) (self : vtkGenericClip)
    (hKeep : KeepsArrays c) :
    (self.internalPD.GetNumberOfArrays ≤ (self.Execute c).self.internalPD.GetNumberOfArrays ∧
      self.secondaryPD.GetNumberOfArrays ≤ (self.Execute c).self.secondaryPD.GetNumberOfArrays ∧
      self.secondaryCD.GetNumberOfArrays ≤
        (self.Execute c).self.secondaryCD.GetNumberOfArrays) ∧
    (AddsNoArray self → (self.Execute c).self.arrayCounts = self.arrayCounts) ∧
    (ReplacesByName c →
      (∀ input, self.Input = some input → ∀ a ∈ input.Attributes, a.Name ≠ none) →
      ((self.Execute c).self.Execute c).self.arrayCounts = (self.Execute c).self.arrayCounts) := by
  obtain ⟨hAdd, hSet, hClip⟩ := hKeep
  have hfull : ∀ input, self.Execute c = ExecuteClip c self input →
      (self.Execute c).self.arrayCounts =
        (prepareAttributes c self input.Attributes).arrayCounts := by
    intro input hE
    rw [hE]
    exact ExecuteClip_perContainer vtkDataSetAttributes.GetNumberOfArrays c self input hClip
  refine ⟨?_, ?_, ?_⟩
  · rcases Execute_cases c self with ⟨hsame, _⟩ | ⟨input, _, _, _, hE, _⟩
    · rw [hsame]; exact ⟨le_refl _, le_refl _, le_refl _⟩
    · have h := hfull input hE
      simp only [vtkGenericClip.arrayCounts, vtkGenericClip.perContainer, Prod.mk.injEq] at h
      rw [h.1, h.2.1, h.2.2]
      exact prepareAttributes_counts c hAdd hSet input.Attributes self
  · intro hno
    rcases Execute_cases c self with ⟨hsame, _⟩ | ⟨input, hin, hpts, hg, hE, _⟩
    · rw [hsame]
    · rcases hno with hnone | ⟨input2, hin2, hcase⟩
      · rw [hnone] at hin; cases hin
      · have hi : input2 = input := by
          rw [hin] at hin2
          exact (Option.some.inj hin2).symm
        subst hi
        rcases hcase with h | h | h
        · exact absurd h hpts
        · exact absurd h hg
        · rw [hfull input2 hE, h]; rfl
  · intro hR hnamed
    exact arrayCounts_of_arrayNames _ _ (Execute_second_run_names c hR self hnamed)

/-- C8 (amended) on a freshly constructed filter: with a point-centered
attribute in the input the first `Execute` raises the numbers of arrays from
(0, 0, 0) to (1, 1, 0) and the second leaves them there; with no attribute
in the input they stay (0, 0, 0). -/
theorem Execute_arrayCounts_witness :
    KeepsArrays sampleCollaborators ∧
    ((0 : Int) ≤ 1 ∧ (0 : Int) ≤ 1 ∧ (0 : Int) ≤ 0) ∧
    ((freshClip.Execute sampleCollaborators).self.Execute sampleCollaborators).self.arrayCounts =
      (1, 1, 0) ∧
    (AddsNoArray freshClipOneCell ∧
      (freshClipOneCell.Execute sampleCollaborators).self.arrayCounts = (0, 0, 0)) := by
  have h1 := Execute_arrayCounts sampleCollaborators freshClip sampleCollaborators_keepsArrays
  have h2 := Execute_arrayCounts sampleCollaborators freshClipOneCell
    sampleCollaborators_keepsArrays
  have hfirst : (freshClip.Execute sampleCollaborators).self.arrayCounts = (1, 1, 0) := by
    decide
  have hno : AddsNoArray freshClipOneCell :=
    Or.inr ⟨oneCellDataSet, rfl, Or.inr (Or.inr rfl)⟩
  have hnamed : ∀ input, freshClip.Input = some input →
      ∀ a ∈ input.Attributes, a.Name ≠ none := by
    intro input hin a ha
    have hi : input = onePointAttributeDataSet := (Option.some.inj hin).symm
    subst hi
    simp only [onePointAttributeDataSet, List.mem_singleton] at ha
    subst ha
    simp
  refine ⟨sampleCollaborators_keepsArrays, by decide, ?_, hno, ?_⟩
  · rw [h1.2.2 sampleCollaborators_replacesByName hnamed, hfirst]
  · rw [h2.2.1 hno]; rfl

end VTK
